import Mathlib

/-!
Verification of the Savu plugin parameter/metadata management subsystem
(`savu/plugins/plugin_tools.py`, class `PluginParameters`).

The Python code is shallowly embedded: Python values (as they appear in the
parameter definition dictionaries) are modelled by the inductive type `PyVal`;
Python dictionaries are ordered association lists (`PyPairs`) whose assignment
semantics update an existing key in place and append new keys at the end,
matching `dict`/`OrderedDict`.  `OrderedDict` and plain `dict` are both
modelled by `PyVal.dict`, since every mapping handled by the subsystem is
created by the ordered YAML loader.  Fallible Python code (subscripting,
attribute access, explicit `raise`) is modelled with `Except PyErr`; the
unbounded recursion of `get_dependent_default` is modelled with an explicit
fuel argument whose exhaustion corresponds to `RecursionError`.
-/

namespace Savu

mutual
/-- A Python value as used by the plugin parameter subsystem. -/
inductive PyVal where
  | none
  | bool (b : Bool)
  | int (n : Int)
  | float (q : Rat)
  | str (s : String)
  | list (xs : PyList)
  | dict (xs : PyPairs)
deriving DecidableEq, Repr

/-- The elements of a Python list value. -/
inductive PyList where
  | nil
  | cons (x : PyVal) (xs : PyList)
deriving DecidableEq, Repr

/-- The key/value pairs of a Python dictionary, in insertion order. -/
inductive PyPairs where
  | nil
  | cons (k : PyVal) (v : PyVal) (xs : PyPairs)
deriving DecidableEq, Repr
end

namespace PyPairs

/-- Dictionary lookup `d[k]` (first matching key; Python keys are unique). -/
def get? : PyPairs → PyVal → Option PyVal
  | nil, _ => Option.none
  | cons k v rest, key => if k = key then some v else get? rest key

/-- Dictionary assignment `d[k] = v`: an existing key keeps its position,
a new key is appended, matching Python `dict` semantics. -/
def setKey : PyPairs → PyVal → PyVal → PyPairs
  | nil, key, value => cons key value nil
  | cons k v rest, key, value =>
      if k = key then cons key value rest
      else cons k v (setKey rest key value)

/-- Membership test `k in d` for a dictionary. -/
def hasKey (d : PyPairs) (key : PyVal) : Bool :=
  (d.get? key).isSome

/-- `list(d.keys())`, as a Lean list. -/
def keyList : PyPairs → List PyVal
  | nil => []
  | cons k _ rest => k :: keyList rest

/-- The pairs of a dictionary, as a Lean list. -/
def toList : PyPairs → List (PyVal × PyVal)
  | nil => []
  | cons k v rest => (k, v) :: toList rest

/-- Number of entries, `len(d)`. -/
def length : PyPairs → Nat
  | nil => 0
  | cons _ _ rest => length rest + 1

end PyPairs

namespace PyList

/-- The elements of a Python list, as a Lean list. -/
def toList : PyList → List PyVal
  | nil => []
  | cons x xs => x :: toList xs

/-- Membership test `x in l` (Python `==` is modelled by equality). -/
def memb (l : PyList) (x : PyVal) : Bool :=
  match l with
  | nil => false
  | cons y ys => if y = x then true else memb ys x

/-- `len(l)`. -/
def length : PyList → Nat
  | nil => 0
  | cons _ xs => length xs + 1

/-- `l[i]` for a non-negative index. -/
def get? : PyList → Nat → Option PyVal
  | nil, _ => Option.none
  | cons x _, 0 => some x
  | cons _ xs, n + 1 => get? xs n

end PyList

/-- `l.append x`. -/
def PyList.push : PyList → PyVal → PyList
  | PyList.nil, x => PyList.cons x PyList.nil
  | PyList.cons y ys, x => PyList.cons y (ys.push x)

/-- Build a Python list value from a Lean list. -/
def PyList.ofList : List PyVal → PyList
  | [] => PyList.nil
  | x :: xs => PyList.cons x (PyList.ofList xs)

/-- `isinstance(v, dict)` (an `OrderedDict` is also a `dict`). -/
def PyVal.isDict : PyVal → Bool
  | .dict _ => true
  | _ => false

/-- Python truthiness of a value. -/
def PyVal.isTruthy : PyVal → Bool
  | .none => false
  | .bool b => b
  | .int n => n ≠ 0
  | .float q => q ≠ 0
  | .str s => s ≠ ""
  | .list xs => xs.length ≠ 0
  | .dict xs => xs.length ≠ 0

mutual
/-- Python `repr` of a value (used for the elements of container `str` forms). -/
def pyRepr : PyVal → String
  | .none => "None"
  | .bool true => "True"
  | .bool false => "False"
  | .int n => toString n
  | .float q => if q.den = 1 then toString q.num ++ ".0" else toString q.num ++ "/" ++ toString q.den
  | .str s => "\x27" ++ s ++ "\x27"
  | .list PyList.nil => "[]"
  | .list xs => "[" ++ pyReprList xs ++ "]"
  | .dict PyPairs.nil => "\x7b\x7d"
  | .dict xs => "\x7b" ++ pyReprPairs xs ++ "\x7d"

/-- Comma-joined `repr` of list elements. -/
def pyReprList : PyList → String
  | PyList.nil => ""
  | PyList.cons x PyList.nil => pyRepr x
  | PyList.cons x xs => pyRepr x ++ ", " ++ pyReprList xs

/-- Comma-joined `repr` of dictionary entries. -/
def pyReprPairs : PyPairs → String
  | PyPairs.nil => ""
  | PyPairs.cons k v PyPairs.nil => pyRepr k ++ ": " ++ pyRepr v
  | PyPairs.cons k v xs => pyRepr k ++ ": " ++ pyRepr v ++ ", " ++ pyReprPairs xs
end

/-- Python `str(v)`: identical to `repr` except on strings, which are returned
unquoted. -/
def pyStr : PyVal → String
  | .str s => s
  | v => pyRepr v

/-- A raised Python exception. -/
inductive PyErr where
  | keyError (k : PyVal)
  | indexError (msg : String)
  | typeError (msg : String)
  | attributeError (msg : String)
  | valueError (msg : String)
  | exception (msg : String)
  | recursionError
deriving DecidableEq, Repr

/-- Subscripting `container[key]`: dictionary lookup with `KeyError` on a missing
key, list indexing (with Python negative-index semantics) with `IndexError` out of
range, `TypeError` otherwise. -/
def pySub (container key : PyVal) : Except PyErr PyVal :=
  match container with
  | .dict xs =>
    match xs.get? key with
    | some v => .ok v
    | Option.none => .error (.keyError key)
  | .list xs =>
    match key with
    | .int n =>
      let i : Int := if n < 0 then n + xs.length else n
      match i with
      | Int.ofNat m =>
        match xs.get? m with
        | some v => .ok v
        | Option.none => .error (.indexError "list index out of range")
      | _ => .error (.indexError "list index out of range")
    | _ => .error (.typeError "list indices must be integers or slices")
  | _ => .error (.typeError "object is not subscriptable")

/-- Membership `needle in container`: element membership for lists, key
membership for dictionaries, substring test for strings. -/
def pyIn (needle container : PyVal) : Except PyErr Bool :=
  match container with
  | .list xs => .ok (xs.memb needle)
  | .dict xs => .ok (xs.hasKey needle)
  | .str s =>
    match needle with
    | .str t => .ok (decide (t.data <:+: s.data))
    | _ => .error (.typeError "in <string> requires string as left operand")
  | _ => .error (.typeError "argument is not iterable")

/-- `len(v)` for containers and strings. -/
def pyLen (v : PyVal) : Except PyErr Nat :=
  match v with
  | .list xs => .ok xs.length
  | .dict xs => .ok xs.length
  | .str s => .ok s.length
  | _ => .error (.typeError "object has no len")

/-- `list(v.keys())[0]`: the first key of a dictionary; `IndexError` when the
dictionary is empty, `AttributeError` when `v` is not a dictionary. -/
def firstKeyOf (v : PyVal) : Except PyErr PyVal :=
  match v with
  | .dict (PyPairs.cons k _ _) => .ok k
  | .dict PyPairs.nil => .error (.indexError "list index out of range")
  | _ => .error (.attributeError "keys")

/-- `type(v).__name__`. -/
def pyTypeName : PyVal → String
  | .none => "NoneType"
  | .bool _ => "bool"
  | .int _ => "int"
  | .float _ => "float"
  | .str _ => "str"
  | .list _ => "list"
  | .dict _ => "dict"

/-! ### `PluginParameters.does_exist` and `get_dependent_default`

`get_dependent_default` is recursive in the source with no guard; the `fuel`
argument models the Python recursion limit (`PyErr.recursionError` on
exhaustion).  The function reads and writes `self.parameters`, so it is
threaded through explicitly and the result is the pair
(updated parameters, returned value). -/

/-- `PluginParameters.does_exist(key, ddict)`. -/
def does_exist (key : PyVal) (ddict : PyPairs) : Except PyErr PyVal :=
  match ddict.get? key with
  | some v => .ok v
  | Option.none =>
      .error (.exception ("The dependency " ++ pyStr key ++ " does not exist"))

/-- `PluginParameters.get_dependent_default(child)` over definitions `pdefs` and
current values `params`; the argument `child` is whatever dictionary the source
passes (the full definition record at the top-level call site, the raw default
mapping in the recursive call, exactly as written in the source). -/
def get_dependent_default :
    Nat → PyPairs → PyPairs → PyVal → Except PyErr (PyPairs × PyVal)
  | 0, _, _, _ => .error .recursionError
  | Nat.succ fuel, pdefs, params, child => do
    let cdef ← pySub child (.str "default")
    let parentName ← firstKeyOf cdef
    let parent ← does_exist parentName pdefs
    let parentDefault ← pySub parent (.str "default")
    if parentDefault.isDict then do
      let res ← get_dependent_default fuel pdefs params parentDefault
      let params2 := res.1.setKey parentName res.2
      let branch ← pySub cdef parentName
      let pv ← (match params2.get? parentName with
        | some x => Except.ok x
        | Option.none => Except.error (PyErr.keyError parentName))
      let v ← pySub branch pv
      .ok (params2, v)
    else do
      let branch ← pySub cdef parentName
      let pv ← (match params.get? parentName with
        | some x => Except.ok x
        | Option.none => Except.error (PyErr.keyError parentName))
      let v ← pySub branch pv
      .ok (params, v)

/-- The loop body of `PluginParameters.update_dependent_defaults`, iterating
over the definition entries. -/
def update_dependent_defaults_aux (fuel : Nat) (pdefs : PyPairs) :
    List (PyVal × PyVal) → PyPairs → Except PyErr PyPairs
  | [], params => .ok params
  | (name, pdict) :: rest, params => do
    let d ← pySub pdict (.str "default")
    if d.isTruthy && d.isDict then do
      let res ← get_dependent_default fuel pdefs params pdict
      update_dependent_defaults_aux fuel pdefs rest (res.1.setKey name res.2)
    else
      update_dependent_defaults_aux fuel pdefs rest params

/-- `PluginParameters.update_dependent_defaults()`. -/
def update_dependent_defaults (fuel : Nat) (pdefs params : PyPairs) :
    Except PyErr PyPairs :=
  update_dependent_defaults_aux fuel pdefs pdefs.toList params

/-- The comprehension `OrderedDict([(k, v["default"]) for k, v in p_defs.items()])`
from `_populate_default_parameters`. -/
def default_value_map : List (PyVal × PyVal) → PyPairs → Except PyErr PyPairs
  | [], acc => .ok acc
  | (name, pdict) :: rest, acc => do
    let d ← pySub pdict (.str "default")
    default_value_map rest (acc.setKey name d)

/-! ### `PluginParameters.check_dependencies` -/

/-- The comprehension building `dep_list` in `check_dependencies`: the
parameters whose definition record carries a `dependency` key, with the
dependency value. -/
def dep_list (pdefs : PyPairs) : List (PyVal × PyVal) :=
  pdefs.toList.filterMap fun p =>
    match p.2 with
    | .dict xs => (xs.get? (.str "dependency")).map fun d => (p.1, d)
    | _ => Option.none

/-- One iteration of the `check_dependencies` loop, as a decision: `some v`
means the display flag of the parameter is assigned `v`, `none` means the
branch that leaves it untouched (parent absent from the value mapping). -/
def display_decision (params : PyPairs) (dependency : PyVal) :
    Except PyErr (Option PyVal) :=
  if dependency.isDict then do
    let parentName ← firstKeyOf dependency
    let choices ← pySub dependency parentName
    match params.get? parentName with
    | some pv => do
        let b ← pyIn (.str (pyStr pv)) choices
        .ok (some (.str (if b then "on" else "off")))
    | Option.none => .ok Option.none
  else
    match params.get? dependency with
    | some pv =>
        .ok (some (.str (if pv = PyVal.none || pyStr pv = "None" then "off" else "on")))
    | Option.none => .ok Option.none

/-- The in-place write `param_info_dict[p_name]["display"] = v`. -/
def set_display_key (pdefs : PyPairs) (name v : PyVal) : Except PyErr PyPairs :=
  match pdefs.get? name with
  | Option.none => .error (.keyError name)
  | some r =>
    match r with
    | .dict xs => .ok (pdefs.setKey name (.dict (xs.setKey (.str "display") v)))
    | _ => .error (.typeError "object does not support item assignment")

/-- The write loop of `check_dependencies` over the snapshot `dep_list`. -/
def check_dependencies_aux (params : PyPairs) :
    List (PyVal × PyVal) → PyPairs → Except PyErr PyPairs
  | [], pdefs => .ok pdefs
  | (name, dependency) :: rest, pdefs => do
    let o ← display_decision params dependency
    match o with
    | Option.none => check_dependencies_aux params rest pdefs
    | some v => do
        let pdefs1 ← set_display_key pdefs name v
        check_dependencies_aux params rest pdefs1

/-- `PluginParameters.check_dependencies(parameters)`: returns the updated
definition dictionary (the display flags are the only thing it writes). -/
def check_dependencies (pdefs params : PyPairs) : Except PyErr PyPairs :=
  check_dependencies_aux params (dep_list pdefs) pdefs

/-- `PluginParameters._set_display(param_info_dict)`: set every display flag
to `"on"`. -/
def set_display_all : PyPairs → Except PyErr PyPairs
  | PyPairs.nil => .ok PyPairs.nil
  | PyPairs.cons k v rest => do
    let rest1 ← set_display_all rest
    match v with
    | .dict xs => .ok (PyPairs.cons k (.dict (xs.setKey (.str "display") (.str "on"))) rest1)
    | _ => .error (.typeError "object does not support item assignment")

/-- `PluginParameters._populate_default_parameters` (without the docstring
bookkeeping and the notification of the plugin object, which do not touch the
definitions or the value mapping): build the value mapping from the declared
defaults, resolve dependent defaults, recompute the display flags.  Returns
(updated definitions, value mapping). -/
def populate_default_parameters (fuel : Nat) (pdefs : PyPairs) :
    Except PyErr (PyPairs × PyPairs) := do
  let params0 ← default_value_map pdefs.toList PyPairs.nil
  let params1 ← update_dependent_defaults fuel pdefs params0
  let pdefs1 ← check_dependencies pdefs params1
  .ok (pdefs1, params1)

/-! ### `PluginParameters._check_required_keys` -/

/-- The initial `required_keys` list of `_check_required_keys`. -/
def required_keys_init : List String := ["dtype", "description", "visibility", "default"]

/-- The loop of `_check_required_keys`, collecting `missing_key_dict`.  Note
that the source reassigns the loop-carried `required_keys` variable to
`["default"]` when it meets a hidden-visibility parameter and never restores
it, so the reassignment also applies to every later parameter. -/
def missing_key_loop :
    List (PyVal × PyVal) → List String → List (PyVal × List String) →
    Except PyErr (List (PyVal × List String))
  | [], _, acc => .ok acc
  | (pkey, p) :: rest, required, acc =>
    match p with
    | .dict xs =>
      let required1 :=
        if xs.get? (.str "visibility") = some (.str "hidden") then ["default"]
        else required
      let missing := required1.filter (fun d => ! xs.hasKey (.str d))
      if missing.isEmpty then missing_key_loop rest required1 acc
      else missing_key_loop rest required1 (acc ++ [(pkey, missing)])
    | _ => .error (.attributeError "keys")

/-- `PluginParameters._check_required_keys(param_info_dict, tool_class)`:
raises when `missing_key_dict` is non-empty after scanning every parameter. -/
def check_required_keys (param_info : PyPairs) (className : String) :
    Except PyErr Unit := do
  let mkd ← missing_key_loop param_info.toList required_keys_init []
  if mkd.isEmpty then .ok ()
  else .error (.exception ("Please edit " ++ className))

/-! ### `PluginParameters._check_dtype`

The registry `param_u.type_dict` lives in
`scripts/config_generator/parameter_utils.py`, which is not under `src/`; the
check is therefore parameterised by the list of registered type names. -/

/-- The loop of `_check_dtype` carrying the `dtype_valid` flag.  The branch for
a list-valued dtype prints a report for each unknown token but leaves the flag
untouched, exactly as in the source. -/
def dtype_valid_loop (typeDict : List PyVal) :
    List (PyVal × PyVal) → Bool → Except PyErr Bool
  | [], valid => .ok valid
  | (_, p) :: rest, valid => do
    let d ← pySub p (.str "dtype")
    match d with
    | .list _ => dtype_valid_loop typeDict rest valid
    | _ =>
      if d ∈ typeDict then dtype_valid_loop typeDict rest valid
      else dtype_valid_loop typeDict rest false

/-- `PluginParameters._check_dtype(param_info_dict, tool_class)`. -/
def check_dtype (typeDict : List PyVal) (param_info : PyPairs)
    (className : String) : Except PyErr Unit := do
  let valid ← dtype_valid_loop typeDict param_info.toList true
  if valid then .ok () else .error (.exception ("Please edit " ++ className))

/-! ### Multi-parameter (sweep) expansion

`param_u.is_multi_param` and `pu.convert_multi_params` live in modules that are
not under `src/`, so `__check_multi_params` is parameterised by them; the sweep
callbacks of the plugin object (`get_multi_params_dict`,
`alter_multi_params_dict`, `append_extra_dims`) are likewise not under `src/`
and are modelled from the spec. -/

/-- Modelled from the spec: the sweep-registration state the orchestration
layer keeps for one plugin — the mapping of sweep-dimension index to sweep
entry, and the list of extra-dimension cardinalities
(`plugin.get_multi_params_dict()` / `plugin.extra_dims`). -/
structure PluginState where
  multi_params_dict : PyPairs
  extra_dims : PyList
deriving DecidableEq, Repr

/-- Modelled from the spec: callback `plugin.alter_multi_params_dict(i, entry)`
stores `entry` at sweep-dimension index `i`. -/
def alter_multi_params_dict (ps : PluginState) (i : Nat) (entry : PyVal) :
    PluginState :=
  { ps with multi_params_dict := ps.multi_params_dict.setKey (.int i) entry }

/-- Modelled from the spec: callback `plugin.append_extra_dims(n)` records that
the plugin spans `n` additional execution instances. -/
def append_extra_dims (ps : PluginState) (n : Nat) : PluginState :=
  { ps with extra_dims := ps.extra_dims.push (.int n) }

/-- `PluginParameters.__check_multi_params(parameters, value, key)`,
parameterised by the syntax classifier `is_multi` and the converter `convert`
(which returns the pair `(converted_value, error_string)` as in the source).
Returns the updated value mapping and plugin sweep state. -/
def check_multi_params
    (is_multi : PyVal → PyVal → Bool)
    (convert : PyVal → PyVal → PyVal × Option String)
    (parameters : PyPairs) (plugin : PluginState) (value key : PyVal) :
    Except PyErr (PyPairs × PluginState) :=
  if is_multi key value then
    match convert key value with
    | (v, Option.none) => do
      let parameters1 := parameters.setKey key v
      let keyStr ← (match key with
        | .str s => Except.ok s
        | _ => Except.error (PyErr.typeError "can only concatenate str to str"))
      let first ← pySub v (.int 0)
      let label := keyStr ++ "_params." ++ pyTypeName first
      let entry : PyVal :=
        .dict (PyPairs.cons (.str "label") (.str label)
          (PyPairs.cons (.str "values") v PyPairs.nil))
      let plugin1 := alter_multi_params_dict plugin plugin.multi_params_dict.length entry
      let n ← pyLen v
      .ok (parameters1, append_extra_dims plugin1 n)
    | (_, some _) => .ok (parameters, plugin)
  else
    .ok (parameters.setKey key value, plugin)

/-- The `ValueError` message of `set_plugin_list_parameters` for an unknown
override key. -/
def unknown_key_message (key : PyVal) (pluginName : String) : String :=
  "Parameter \x27" ++ pyStr key ++ "\x27 is not valid for plugin " ++ pluginName ++
  ". \nTry opening and re-saving the process list in the configurator to auto remove \nobsolete parameters."

/-- `PluginParameters.set_plugin_list_parameters(input_parameters)`: iterate
over the override entries in order; known keys go through
`__check_multi_params`, the first unknown key raises `ValueError`.  Because the
Python method mutates `self.parameters` in place, a raised error carries the
value mapping and sweep state as they stood at the raise. -/
def set_plugin_list_parameters
    (is_multi : PyVal → PyVal → Bool)
    (convert : PyVal → PyVal → PyVal × Option String)
    (pluginName : String) :
    List (PyVal × PyVal) → PyPairs → PluginState →
    Except (PyErr × PyPairs × PluginState) (PyPairs × PluginState)
  | [], parameters, plugin => .ok (parameters, plugin)
  | (key, newValue) :: rest, parameters, plugin =>
    if parameters.hasKey key then
      match check_multi_params is_multi convert parameters plugin newValue key with
      | .ok (p1, pl1) =>
          set_plugin_list_parameters is_multi convert pluginName rest p1 pl1
      | .error e => .error (e, parameters, plugin)
    else
      .error (.valueError (unknown_key_message key pluginName), parameters, plugin)

/-! ### `PluginParameters.check_for_default`

`check_for_default` calls `self._set_default(default, parameters, param_name)`,
which is not defined under `src/` (only this caller is). -/

/-- Modelled from the spec: `PluginParameters._set_default`, referenced by
`check_for_default` but absent from `src/`.  Per the specification a literal
default is returned unchanged, and a dependency-descriptor default
`\x7bparent_name: \x7bparent_value: default, ...\x7d\x7d` selects the branch
matching the current value of the parent parameter. -/
def set_default_model (default : PyVal) (parameters : PyPairs) (_paramName : PyVal) :
    Except PyErr PyVal :=
  match default with
  | .dict (PyPairs.cons parentName branches _) => do
    let pv ← (match parameters.get? parentName with
      | some x => Except.ok x
      | Option.none => Except.error (PyErr.keyError parentName))
    pySub branches pv
  | .dict PyPairs.nil => .error (.indexError "list index out of range")
  | v => .ok v

/-- `PluginParameters.check_for_default(value, param_name, parameters)`. -/
def check_for_default (pdefs parameters : PyPairs) (value paramName : PyVal) :
    Except PyErr PyVal :=
  if pyStr value = "default" then do
    let rec0 ← (match pdefs.get? paramName with
      | some r => Except.ok r
      | Option.none => Except.error (PyErr.keyError paramName))
    let d ← pySub rec0 (.str "default")
    set_default_model d parameters paramName
  else .ok value

/-! ### `PluginParameters.warn_dependents` and `make_recommendation` -/

/-- `PluginParameters.make_recommendation(child_name, desc, parent_name, value)`:
writes the `range` entry of the description in place and prints the
recommendation; returns the updated description and the printed text. -/
def make_recommendation (childName desc parentName value : PyVal) :
    Except PyErr (PyVal × String) :=
  let rangeMsg := "The recommended value with the chosen " ++ pyStr parentName
      ++ " would be " ++ pyStr value
  let recMsg := "It\x27s recommended that you update " ++ pyStr childName
      ++ " to " ++ pyStr value
  match desc with
  | .dict xs => .ok (.dict (xs.setKey (.str "range") (.str rangeMsg)), recMsg)
  | _ => .error (.typeError "object does not support item assignment")

/-- One iteration of the `warn_dependents` loop over a definition entry:
returns the (possibly description-mutated) record and the recommendations
printed for it. -/
def warn_dependents_entry (modParam modValue name pdict : PyVal) :
    Except PyErr (PyVal × List String) := do
  let d ← pySub pdict (.str "default")
  if d.isDict then do
    let parentName ← firstKeyOf d
    if parentName = modParam then do
      let branches ← pySub d parentName
      match branches with
      | .dict bs =>
        if bs.hasKey modValue then do
          let value ← pySub branches modValue
          let desc ← pySub pdict (.str "description")
          let res ← make_recommendation name desc parentName value
          match pdict with
          | .dict ps => .ok (.dict (ps.setKey (.str "description") res.1), [res.2])
          | _ => .error (.typeError "object does not support item assignment")
        else .ok (pdict, [])
      | _ => .error (.attributeError "keys")
    else .ok (pdict, [])
  else .ok (pdict, [])

/-- `PluginParameters.warn_dependents(mod_param, mod_value)`: returns the
updated definition dictionary and the recommendations printed. -/
def warn_dependents (modParam modValue : PyVal) :
    PyPairs → Except PyErr (PyPairs × List String)
  | PyPairs.nil => .ok (PyPairs.nil, [])
  | PyPairs.cons name pdict rest => do
    let res ← warn_dependents_entry modParam modValue name pdict
    let res2 ← warn_dependents modParam modValue rest
    .ok (PyPairs.cons name res.1 res2.1, res.2 ++ res2.2)

/-! ### Spec-modelled multi-parameter syntax utilities

`param_u.is_multi_param` and `pu.convert_multi_params` are not under `src/`;
they are modelled from the spec for the concrete witnesses: the multi-value
syntax is a ";"-delimited literal sequence, converted according to the declared
dtype of the parameter (here: the float case used by the spec example). -/

/-- Split a character list on a delimiter (the segments, in order). -/
def splitCharsOn (c : Char) : List Char → List (List Char)
  | [] => [[]]
  | x :: xs =>
    match splitCharsOn c xs with
    | [] => if x = c then [[], []] else [[x]]
    | y :: ys => if x = c then [] :: y :: ys else (x :: y) :: ys

/-- Digits-only natural number parser for the float segments. -/
def parseNatSeg (cs : List Char) : Option Nat :=
  if cs.length ≠ 0 && cs.all Char.isDigit then
    some (cs.foldl (fun a c => a * 10 + (c.toNat - 48)) 0)
  else Option.none

/-- Decimal-literal parser producing an exact rational. -/
def parseFloatSeg (cs : List Char) : Option Rat :=
  match splitCharsOn (Char.ofNat 46) cs with
  | [a] => (parseNatSeg a).map (fun n => (n : Rat))
  | [a, b] => do
    let x ← parseNatSeg a
    let y ← parseNatSeg b
    some ((x : Rat) + (y : Rat) / ((10 : Rat) ^ b.length))
  | _ => Option.none

/-- Modelled from the spec: `param_u.is_multi_param(name, value)` — the value
matches the multi-value syntax when it is a string containing the ";"
delimiter. -/
def spec_is_multi_param (_name value : PyVal) : Bool :=
  match value with
  | .str s => s.data.contains (Char.ofNat 59)
  | _ => false

/-- Modelled from the spec: `pu.convert_multi_params(param_name, value)` for a
float-typed parameter — split the string on ";", convert every non-empty
segment to a float; on success return `(converted_list, None)`, on a malformed
segment return the raw value with an error string describing it. -/
def spec_convert_multi_float (_name value : PyVal) : PyVal × Option String :=
  match value with
  | .str s =>
    let segs := (splitCharsOn (Char.ofNat 59) s.data).filter (fun t => t ≠ [])
    let parsed := segs.map parseFloatSeg
    if parsed.all Option.isSome then
      (.list (PyList.ofList (parsed.filterMap (fun o => o.map PyVal.float))),
       Option.none)
    else
      (value, some ("Invalid multi parameter syntax in segment of " ++ s))
  | _ => (value, some "Invalid multi parameter value")

/-! ### Frame-effect observation functions

`strip_display` erases the display flag of a record and `defs_core` applies it
to every record of a definition dictionary: two dictionaries with equal
`defs_core` differ at most in display flags.  `strip_desc_range` and
`defs_desc_core` do the same for the `range` entry inside a description
mapping. -/

/-- Remove a key from a dictionary (every occurrence). -/
def PyPairs.removeKey : PyPairs → PyVal → PyPairs
  | PyPairs.nil, _ => PyPairs.nil
  | PyPairs.cons k v rest, key =>
      if k = key then rest.removeKey key
      else PyPairs.cons k v (rest.removeKey key)

/-- Erase the display flag of a definition record. -/
def strip_display : PyVal → PyVal
  | .dict xs => .dict (xs.removeKey (.str "display"))
  | v => v

/-- Erase every display flag of a definition dictionary. -/
def defs_core : PyPairs → PyPairs
  | PyPairs.nil => PyPairs.nil
  | PyPairs.cons k v rest => PyPairs.cons k (strip_display v) (defs_core rest)

/-- Erase the `range` entry of a description mapping. -/
def scrub_range : PyVal → PyVal
  | .dict ys => .dict (ys.removeKey (.str "range"))
  | v => v

/-- Apply `scrub_range` to the description field of a record. -/
def scrub_description : PyPairs → PyPairs
  | PyPairs.nil => PyPairs.nil
  | PyPairs.cons k v rest =>
      PyPairs.cons k (if k = .str "description" then scrub_range v else v)
        (scrub_description rest)

/-- Erase the `range` entry of the description of a record. -/
def strip_desc_range : PyVal → PyVal
  | .dict xs => .dict (scrub_description xs)
  | v => v

/-- Erase every description `range` entry of a definition dictionary. -/
def defs_desc_core : PyPairs → PyPairs
  | PyPairs.nil => PyPairs.nil
  | PyPairs.cons k v rest => PyPairs.cons k (strip_desc_range v) (defs_desc_core rest)

/-! ### Concrete definition sets used by the claims -/

/-- Build a definition record from string-keyed fields. -/
def mkRec (fields : List (String × PyVal)) : PyVal :=
  .dict (fields.foldr (fun p acc => PyPairs.cons (.str p.1) p.2 acc) PyPairs.nil)

/-- Build a definition dictionary from named records. -/
def mkDefs (l : List (String × PyVal)) : PyPairs :=
  l.foldr (fun p acc => PyPairs.cons (.str p.1) p.2 acc) PyPairs.nil

/-- Build a dictionary value from pairs. -/
def pd (l : List (PyVal × PyVal)) : PyVal :=
  .dict (l.foldr (fun p acc => PyPairs.cons p.1 p.2 acc) PyPairs.nil)

/-- The depth-2 dependency chain of the spec example: `C = 2` literal,
`B` defaults to `\x7bC: \x7b2: "x"\x7d\x7d`, `A` defaults to
`\x7bB: \x7b"x": 42\x7d\x7d`. -/
def defs_chain : PyPairs := mkDefs
  [ ("A", mkRec [("dtype", .str "int"), ("description", .str "param A"),
                 ("visibility", .str "intermediate"),
                 ("default", pd [(.str "B", pd [(.str "x", .int 42)])])]),
    ("B", mkRec [("dtype", .str "str"), ("description", .str "param B"),
                 ("visibility", .str "intermediate"),
                 ("default", pd [(.str "C", pd [(.int 2, .str "x")])])]),
    ("C", mkRec [("dtype", .str "int"), ("description", .str "param C"),
                 ("visibility", .str "intermediate"),
                 ("default", .int 2)]) ]

/-- A parameter block whose first entry has hidden visibility and whose second
entry is non-hidden but carries only a default. -/
def pinfo_hidden_leak : PyPairs := mkDefs
  [ ("hidden_param", mkRec [("visibility", .str "hidden"), ("default", .int 1)]),
    ("later_param", mkRec [("default", .int 2)]) ]

/-- A definition set with a mapping dependency on a parent that is absent from
the value mapping. -/
def defs_dep_absent : PyPairs := mkDefs
  [ ("child", mkRec [("dtype", .str "int"), ("description", .str "child param"),
      ("visibility", .str "basic"), ("default", .int 1),
      ("dependency", pd [(.str "mode", .list (PyList.cons (.str "manual") PyList.nil))]),
      ("display", .str "on")]) ]

/-- The value mapping of the plugin owning `defs_dep_absent`: the parent
`mode` is not among the current values. -/
def params_dep_absent : PyPairs :=
  PyPairs.cons (.str "child") (.int 1) PyPairs.nil

/-- A definition set for the dependency-display witness: parent present. -/
def defs_dep_present : PyPairs := mkDefs
  [ ("mode", mkRec [("dtype", .str "str"), ("description", .str "mode param"),
      ("visibility", .str "basic"), ("default", .str "auto"),
      ("display", .str "on")]),
    ("frame", mkRec [("dtype", .str "int"), ("description", .str "frame param"),
      ("visibility", .str "basic"), ("default", .int 0),
      ("dependency", pd [(.str "mode", .list (PyList.cons (.str "manual") PyList.nil))]),
      ("display", .str "on")]) ]

/-- Current values for `defs_dep_present` with `mode = "manual"`. -/
def params_dep_present : PyPairs :=
  PyPairs.cons (.str "mode") (.str "manual")
    (PyPairs.cons (.str "frame") (.int 0) PyPairs.nil)

/-- The field dictionary of the `frame` record of `defs_dep_present`. -/
def frame_fields : PyPairs :=
  PyPairs.cons (.str "dtype") (.str "int")
    (PyPairs.cons (.str "description") (.str "frame param")
      (PyPairs.cons (.str "visibility") (.str "basic")
        (PyPairs.cons (.str "default") (.int 0)
          (PyPairs.cons (.str "dependency")
            (.dict (PyPairs.cons (.str "mode")
              (.list (PyList.cons (.str "manual") PyList.nil)) PyPairs.nil))
            (PyPairs.cons (.str "display") (.str "on") PyPairs.nil)))))

/-- A one-parameter value mapping for the sweep examples. -/
def params_sweep : PyPairs :=
  PyPairs.cons (.str "threshold") (.float 0) PyPairs.nil

/-- An empty sweep-registration state. -/
def plugin_empty : PluginState := ⟨PyPairs.nil, PyList.nil⟩

/-- The converted sequence `[1.0, 2.0, 3.0]`. -/
def floats123 : PyVal :=
  .list (PyList.cons (.float 1) (PyList.cons (.float 2)
    (PyList.cons (.float 3) PyList.nil)))

/-- A two-parameter value mapping for the override examples. -/
def params_override : PyPairs :=
  PyPairs.cons (.str "a") (.int 1) (PyPairs.cons (.str "b") (.int 2) PyPairs.nil)

/-- `params_override` after the override of the known key `a` has been
applied. -/
def params_override_mutated : PyPairs :=
  PyPairs.cons (.str "a") (.int 5) (PyPairs.cons (.str "b") (.int 2) PyPairs.nil)

/-- A parameter block whose only parameter declares the dtype list
`["bogus"]`. -/
def pinfo_dtype_list : PyPairs := mkDefs
  [ ("p", mkRec [("dtype", .list (PyList.cons (.str "bogus") PyList.nil)),
      ("description", .str "some param"), ("visibility", .str "basic"),
      ("default", .int 0)]) ]

/-- A definition set where `child` has a dependency-descriptor default on
`mode` and a mapping-valued description. -/
def defs_recommend : PyPairs := mkDefs
  [ ("mode", mkRec [("dtype", .str "str"), ("description", .str "mode param"),
      ("visibility", .str "basic"), ("default", .str "auto")]),
    ("child", mkRec [("dtype", .str "int"),
      ("description", pd [(.str "summary", .str "child param")]),
      ("visibility", .str "basic"),
      ("default", pd [(.str "mode", pd [(.str "manual", .int 10)])])]) ]

/-- `defs_recommend` after `warn_dependents("mode", "manual")`: the description
of `child` has gained a `range` entry. -/
def defs_recommend_after : PyPairs := mkDefs
  [ ("mode", mkRec [("dtype", .str "str"), ("description", .str "mode param"),
      ("visibility", .str "basic"), ("default", .str "auto")]),
    ("child", mkRec [("dtype", .str "int"),
      ("description", pd [(.str "summary", .str "child param"),
        (.str "range", .str "The recommended value with the chosen mode would be 10")]),
      ("visibility", .str "basic"),
      ("default", pd [(.str "mode", pd [(.str "manual", .int 10)])])]) ]

/-- An acyclic definition set with a depth-1 dependent default and a display
dependency, used for the idempotence witness. -/
def defs_idem : PyPairs := mkDefs
  [ ("mode", mkRec [("dtype", .str "str"), ("description", .str "mode param"),
      ("visibility", .str "basic"), ("default", .str "auto"),
      ("display", .str "on")]),
    ("threshold", mkRec [("dtype", .str "int"), ("description", .str "threshold param"),
      ("visibility", .str "basic"),
      ("default", pd [(.str "mode", pd [(.str "auto", .int 5), (.str "manual", .int 10)])]),
      ("dependency", pd [(.str "mode", .list (PyList.cons (.str "manual") PyList.nil))]),
      ("display", .str "on")]) ]

/-- `defs_idem` after one default-resolution pass: the display flag of
`threshold` is `off` (its parent resolved to `"auto"`). -/
def defs_idem_after : PyPairs := mkDefs
  [ ("mode", mkRec [("dtype", .str "str"), ("description", .str "mode param"),
      ("visibility", .str "basic"), ("default", .str "auto"),
      ("display", .str "on")]),
    ("threshold", mkRec [("dtype", .str "int"), ("description", .str "threshold param"),
      ("visibility", .str "basic"),
      ("default", pd [(.str "mode", pd [(.str "auto", .int 5), (.str "manual", .int 10)])]),
      ("dependency", pd [(.str "mode", .list (PyList.cons (.str "manual") PyList.nil))]),
      ("display", .str "off")]) ]

/-- The value mapping produced by one default-resolution pass over
`defs_idem`. -/
def params_idem_after : PyPairs :=
  PyPairs.cons (.str "mode") (.str "auto")
    (PyPairs.cons (.str "threshold") (.int 5) PyPairs.nil)

/-- A definition set with a literal default (`mode`) and a dependency
descriptor default (`threshold`). -/
def defs_default_restore : PyPairs := mkDefs
  [ ("mode", mkRec [("dtype", .str "str"), ("description", .str "mode param"),
      ("visibility", .str "basic"), ("default", .str "auto")]),
    ("threshold", mkRec [("dtype", .str "int"), ("description", .str "threshold param"),
      ("visibility", .str "basic"),
      ("default", pd [(.str "mode", pd [(.str "auto", .int 5), (.str "manual", .int 10)])])]) ]

/-- Current values for `defs_default_restore` with `mode` overridden to
`"manual"`. -/
def params_default_restore : PyPairs :=
  PyPairs.cons (.str "mode") (.str "manual")
    (PyPairs.cons (.str "threshold") (.int 5) PyPairs.nil)

/-! ## Lemmas about the dictionary model -/

namespace PyPairs

/-- Single-motive induction principle for `PyPairs` (the mutual recursor of
the value types has several motives, which the `induction` tactic does not
accept). -/
theorem inductionOn {motive : PyPairs → Prop} (nil : motive PyPairs.nil)
    (cons : ∀ k v rest, motive rest → motive (PyPairs.cons k v rest)) :
    ∀ d, motive d
  | PyPairs.nil => nil
  | PyPairs.cons k v rest => cons k v rest (inductionOn nil cons rest)

theorem get?_setKey_self (d : PyPairs) (k v : PyVal) :
    (d.setKey k v).get? k = some v := by
  induction d using Savu.PyPairs.inductionOn with
  | nil => simp [setKey, get?]
  | cons k0 v0 rest ih =>
    by_cases h : k0 = k
    · simp [setKey, h, get?]
    · simp [setKey, h, get?, ih]

theorem get?_setKey_ne (d : PyPairs) {k k2 : PyVal} (h : k2 ≠ k) (v : PyVal) :
    (d.setKey k v).get? k2 = d.get? k2 := by
  induction d using Savu.PyPairs.inductionOn with
  | nil =>
    have hne : ¬ k = k2 := fun hh => h hh.symm
    simp [setKey, get?, hne]
  | cons k0 v0 rest ih =>
    by_cases h0 : k0 = k
    · subst h0
      have hne : ¬ k0 = k2 := fun hh => h hh.symm
      simp [setKey, get?, hne]
    · simp only [setKey, if_neg h0, get?]
      by_cases h2 : k0 = k2
      · simp [h2]
      · simp [h2, ih]

theorem setKey_of_get?_eq (d : PyPairs) {k v : PyVal} (h : d.get? k = some v) :
    d.setKey k v = d := by
  induction d using Savu.PyPairs.inductionOn with
  | nil => simp [get?] at h
  | cons k0 v0 rest ih =>
    by_cases h0 : k0 = k
    · subst h0
      simp [get?] at h
      simp [setKey, h]
    · simp only [get?, if_neg h0] at h
      simp [setKey, h0, ih h]

theorem setKey_setKey_same (d : PyPairs) (k v w : PyVal) :
    (d.setKey k v).setKey k w = d.setKey k w := by
  induction d using Savu.PyPairs.inductionOn with
  | nil => simp [setKey]
  | cons k0 v0 rest ih =>
    by_cases h0 : k0 = k
    · simp [setKey, h0]
    · simp [setKey, h0, ih]

theorem hasKey_setKey (d : PyPairs) {k : PyVal} (hk : d.hasKey k = true)
    (v k2 : PyVal) : (d.setKey k v).hasKey k2 = d.hasKey k2 := by
  unfold hasKey at *
  by_cases h : k2 = k
  · subst h
    simp [get?_setKey_self]
    cases hg : d.get? k2 with
    | none => rw [hg] at hk; simp [Option.isSome] at hk
    | some w => simp
  · rw [get?_setKey_ne d h]

theorem keyList_eq_toList (d : PyPairs) :
    d.keyList = d.toList.map Prod.fst := by
  induction d using Savu.PyPairs.inductionOn with
  | nil => rfl
  | cons k v rest ih => simp [keyList, toList, ih]

theorem get?_mem_toList (d : PyPairs) {k v : PyVal} (h : d.get? k = some v) :
    (k, v) ∈ d.toList := by
  induction d using Savu.PyPairs.inductionOn with
  | nil => simp [get?] at h
  | cons k0 v0 rest ih =>
    by_cases h0 : k0 = k
    · subst h0
      simp [get?] at h
      simp [toList, h]
    · simp only [get?, if_neg h0] at h
      simp [toList, ih h]

theorem get?_removeKey_ne (d : PyPairs) {k k2 : PyVal} (h : k2 ≠ k) :
    (d.removeKey k).get? k2 = d.get? k2 := by
  induction d using Savu.PyPairs.inductionOn with
  | nil => rfl
  | cons k0 v0 rest ih =>
    by_cases h0 : k0 = k
    · subst h0
      have hne : ¬ k0 = k2 := fun hh => h hh.symm
      simp only [removeKey, if_pos rfl, get?, if_neg hne]
      exact ih
    · simp only [removeKey, if_neg h0, get?]
      by_cases h2 : k0 = k2
      · simp [h2]
      · simp [h2, ih]

theorem removeKey_setKey_same (d : PyPairs) (k v : PyVal) :
    (d.setKey k v).removeKey k = d.removeKey k := by
  induction d using Savu.PyPairs.inductionOn with
  | nil => simp [setKey, removeKey]
  | cons k0 v0 rest ih =>
    by_cases h0 : k0 = k
    · simp [setKey, removeKey, h0]
    · simp [setKey, removeKey, h0, ih]

end PyPairs

/-! ## Lemmas about the frame-effect observations -/

theorem strip_display_setKey_display (xs : PyPairs) (v : PyVal) :
    strip_display (.dict (xs.setKey (.str "display") v)) = strip_display (.dict xs) := by
  simp [strip_display, PyPairs.removeKey_setKey_same]

theorem pySub_strip_display {k : PyVal} (h : k ≠ .str "display") (r : PyVal) :
    pySub (strip_display r) k = pySub r k := by
  cases r <;> try rfl
  case dict xs =>
    show pySub (.dict (xs.removeKey (.str "display"))) k = pySub (.dict xs) k
    simp only [pySub, PyPairs.get?_removeKey_ne xs h]

/-- Reads of every field other than the display flag agree on records with
equal `strip_display` images. -/
theorem pySub_eq_of_strip_eq {r1 r2 : PyVal}
    (h : strip_display r1 = strip_display r2) {k : PyVal}
    (hk : k ≠ .str "display") : pySub r1 k = pySub r2 k := by
  rw [← pySub_strip_display hk r1, ← pySub_strip_display hk r2, h]

/-- Direct dictionary-content reads of non-display fields also agree on
records with equal `strip_display` images. -/
theorem record_field_eq_of_strip_eq {r1 r2 : PyVal}
    (h : strip_display r1 = strip_display r2) {k : PyVal}
    (hk : k ≠ .str "display") :
    (match r1 with | PyVal.dict xs => xs.get? k | _ => Option.none) =
    (match r2 with | PyVal.dict xs => xs.get? k | _ => Option.none) := by
  cases r1 <;> cases r2 <;> simp only [strip_display] at h <;>
    first
      | rfl
      | (injection h with hx
         show PyPairs.get? _ k = PyPairs.get? _ k
         rw [← PyPairs.get?_removeKey_ne _ hk, hx, PyPairs.get?_removeKey_ne _ hk])
      | (cases h)

theorem defs_core_get? (d : PyPairs) (k : PyVal) :
    (defs_core d).get? k = (d.get? k).map strip_display := by
  induction d using PyPairs.inductionOn with
  | nil => rfl
  | cons k0 v0 rest ih =>
    by_cases h : k0 = k <;> simp [defs_core, PyPairs.get?, h, ih]

theorem defs_core_toList (d : PyPairs) :
    (defs_core d).toList = d.toList.map (fun p => (p.1, strip_display p.2)) := by
  induction d using PyPairs.inductionOn with
  | nil => rfl
  | cons k0 v0 rest ih => simp [defs_core, PyPairs.toList, ih]

theorem defs_core_keyList (d : PyPairs) :
    (defs_core d).keyList = d.keyList := by
  induction d using PyPairs.inductionOn with
  | nil => rfl
  | cons k0 v0 rest ih => simp [defs_core, PyPairs.keyList, ih]

theorem defs_core_setKey (d : PyPairs) {k r r' : PyVal}
    (h : d.get? k = some r) (hs : strip_display r' = strip_display r) :
    defs_core (d.setKey k r') = defs_core d := by
  induction d using PyPairs.inductionOn with
  | nil => simp [PyPairs.get?] at h
  | cons k0 v0 rest ih =>
    by_cases h0 : k0 = k
    · subst h0
      simp [PyPairs.get?] at h
      subst h
      simp [PyPairs.setKey, defs_core, hs]
    · simp only [PyPairs.get?, if_neg h0] at h
      simp [PyPairs.setKey, h0, defs_core, ih h]

theorem get?_map_strip_of_core_eq {d1 d2 : PyPairs}
    (h : defs_core d1 = defs_core d2) (k : PyVal) :
    (d1.get? k).map strip_display = (d2.get? k).map strip_display := by
  rw [← defs_core_get?, ← defs_core_get?, h]

/-- Reduction of `Except` bind at an `ok` value. -/
theorem pyBind_ok {α β : Type} (a : α) (f : α → Except PyErr β) :
    ((Except.ok a : Except PyErr α) >>= f) = f a := rfl

/-- Reduction of `Except` bind at an `error` value. -/
theorem pyBind_error {α β : Type} (e : PyErr) (f : α → Except PyErr β) :
    ((Except.error e : Except PyErr α) >>= f) = Except.error e := rfl

/-! ## Congruence of the default-resolution pass under display-only changes

The default-resolution functions read only the `default` (and, for
`check_dependencies`, the `dependency`) fields of the definition records, so
they are invariant under changes of the display flags. -/

theorem get_dependent_default_congr :
    ∀ (fuel : Nat) (d1 d2 : PyPairs), defs_core d1 = defs_core d2 →
    ∀ (params : PyPairs) (c1 c2 : PyVal),
      pySub c1 (.str "default") = pySub c2 (.str "default") →
      get_dependent_default fuel d1 params c1 =
        get_dependent_default fuel d2 params c2
  | 0, _, _, _, _, _, _, _ => rfl
  | Nat.succ fuel, d1, d2, hd, params, c1, c2, hc => by
    simp only [get_dependent_default]
    rw [hc]
    cases hsub : pySub c2 (PyVal.str "default") with
    | error e => rfl
    | ok cdef =>
      simp only [pyBind_ok]
      cases hfk : firstKeyOf cdef with
      | error e => rfl
      | ok parentName =>
        simp only [pyBind_ok]
        have hrel := get?_map_strip_of_core_eq hd parentName
        cases hg1 : d1.get? parentName with
        | none =>
          cases hg2 : d2.get? parentName with
          | none =>
            simp only [does_exist, hg1, hg2]
            rfl
          | some r2 => rw [hg1, hg2] at hrel; simp at hrel
        | some r1 =>
          cases hg2 : d2.get? parentName with
          | none => rw [hg1, hg2] at hrel; simp at hrel
          | some r2 =>
            rw [hg1, hg2] at hrel
            have hstrip : strip_display r1 = strip_display r2 := by
              simpa using hrel
            have hpd : pySub r1 (PyVal.str "default") =
                pySub r2 (PyVal.str "default") :=
              pySub_eq_of_strip_eq hstrip (by simp)
            simp only [does_exist, hg1, hg2, pyBind_ok]
            rw [hpd]
            cases hpdv : pySub r2 (PyVal.str "default") with
            | error e => rfl
            | ok pdflt =>
              simp only [pyBind_ok]
              rw [get_dependent_default_congr fuel d1 d2 hd params pdflt pdflt rfl]

theorem update_dependent_defaults_aux_congr (fuel : Nat) (d1 d2 : PyPairs)
    (hd : defs_core d1 = defs_core d2) :
    ∀ (l1 l2 : List (PyVal × PyVal)),
      l1.map (fun p => (p.1, strip_display p.2)) =
        l2.map (fun p => (p.1, strip_display p.2)) →
    ∀ params, update_dependent_defaults_aux fuel d1 l1 params =
        update_dependent_defaults_aux fuel d2 l2 params := by
  intro l1
  induction l1 with
  | nil =>
    intro l2 hl params
    cases l2 with
    | nil => rfl
    | cons p t => simp at hl
  | cons p1 t1 ih =>
    intro l2 hl params
    cases l2 with
    | nil => simp at hl
    | cons p2 t2 =>
      simp only [List.map_cons, List.cons.injEq, Prod.mk.injEq] at hl
      obtain ⟨⟨hn, hs⟩, ht⟩ := hl
      obtain ⟨n1, r1⟩ := p1
      obtain ⟨n2, r2⟩ := p2
      simp only at hn hs
      subst hn
      simp only [update_dependent_defaults_aux]
      have hpd : pySub r1 (PyVal.str "default") = pySub r2 (PyVal.str "default") :=
        pySub_eq_of_strip_eq hs (by simp)
      rw [hpd]
      cases hdv : pySub r2 (PyVal.str "default") with
      | error e => rfl
      | ok dflt =>
        simp only [pyBind_ok]
        by_cases hb : (dflt.isTruthy && dflt.isDict) = true
        · simp only [hb, if_true]
          rw [get_dependent_default_congr fuel d1 d2 hd params r1 r2 hpd]
          cases hres : get_dependent_default fuel d2 params r2 with
          | error e => rfl
          | ok res => simp only [pyBind_ok]; exact ih t2 ht _
        · simp only [hb, if_false]
          exact ih t2 ht params

theorem default_value_map_congr :
    ∀ (l1 l2 : List (PyVal × PyVal)),
      l1.map (fun p => (p.1, strip_display p.2)) =
        l2.map (fun p => (p.1, strip_display p.2)) →
    ∀ acc, default_value_map l1 acc = default_value_map l2 acc := by
  intro l1
  induction l1 with
  | nil =>
    intro l2 hl acc
    cases l2 with
    | nil => rfl
    | cons p t => simp at hl
  | cons p1 t1 ih =>
    intro l2 hl acc
    cases l2 with
    | nil => simp at hl
    | cons p2 t2 =>
      simp only [List.map_cons, List.cons.injEq, Prod.mk.injEq] at hl
      obtain ⟨⟨hn, hs⟩, ht⟩ := hl
      obtain ⟨n1, r1⟩ := p1
      obtain ⟨n2, r2⟩ := p2
      simp only at hn hs
      subst hn
      simp only [default_value_map]
      have hpd : pySub r1 (PyVal.str "default") = pySub r2 (PyVal.str "default") :=
        pySub_eq_of_strip_eq hs (by simp)
      rw [hpd]
      cases hdv : pySub r2 (PyVal.str "default") with
      | error e => rfl
      | ok d => simp only [pyBind_ok]; exact ih t2 ht _

theorem dep_list_congr {d1 d2 : PyPairs} (h : defs_core d1 = defs_core d2) :
    dep_list d1 = dep_list d2 := by
  have hl : d1.toList.map (fun p => (p.1, strip_display p.2)) =
      d2.toList.map (fun p => (p.1, strip_display p.2)) := by
    rw [← defs_core_toList, ← defs_core_toList, h]
  unfold dep_list
  revert hl
  generalize d1.toList = l1
  generalize d2.toList = l2
  intro hl
  induction l1 generalizing l2 with
  | nil =>
    cases l2 with
    | nil => rfl
    | cons p t => simp at hl
  | cons p1 t1 ih =>
    cases l2 with
    | nil => simp at hl
    | cons p2 t2 =>
      simp only [List.map_cons, List.cons.injEq, Prod.mk.injEq] at hl
      obtain ⟨⟨hn, hs⟩, ht⟩ := hl
      obtain ⟨n1, r1⟩ := p1
      obtain ⟨n2, r2⟩ := p2
      simp only at hn hs
      subst hn
      have hfield := record_field_eq_of_strip_eq hs
        (k := PyVal.str "dependency") (by simp)
      simp only [List.filterMap_cons]
      rw [ih t2 ht]
      cases r1 <;> cases r2 <;> simp only at hfield ⊢ <;>
        first
          | rfl
          | (cases hs)
          | (rw [hfield]; try rfl)

/-! ## The write loop of `check_dependencies` -/

theorem set_display_key_spec {pdefs : PyPairs} {n v : PyVal} {out : PyPairs}
    (h : set_display_key pdefs n v = .ok out) :
    ∃ xs, pdefs.get? n = some (.dict xs) ∧
      out = pdefs.setKey n (.dict (xs.setKey (.str "display") v)) := by
  unfold set_display_key at h
  cases hg : pdefs.get? n with
  | none => rw [hg] at h; cases h
  | some r =>
    rw [hg] at h
    cases r <;> try (cases h)
    rename_i xs
    exact ⟨xs, rfl, rfl⟩

theorem check_dependencies_aux_core :
    ∀ (wl : List (PyVal × PyVal)) (params pdefs defs1 : PyPairs),
      check_dependencies_aux params wl pdefs = .ok defs1 →
      defs_core defs1 = defs_core pdefs
  | [], _, pdefs, defs1, h => by
    injection h with h2
    rw [h2]
  | (n0, dep0) :: rest, params, pdefs, defs1, h => by
    simp only [check_dependencies_aux] at h
    cases hdec : display_decision params dep0 with
    | error e =>
      rw [hdec] at h
      cases h
    | ok o =>
      rw [hdec] at h
      cases o with
      | none =>
        have h2 : check_dependencies_aux params rest pdefs = Except.ok defs1 := h
        exact check_dependencies_aux_core rest params pdefs defs1 h2
      | some v =>
        have h2 : (set_display_key pdefs n0 v >>= fun pdefs1 =>
            check_dependencies_aux params rest pdefs1) = Except.ok defs1 := h
        cases hsd : set_display_key pdefs n0 v with
        | error e =>
          rw [hsd] at h2
          cases h2
        | ok pdefs1 =>
          rw [hsd] at h2
          have h3 : check_dependencies_aux params rest pdefs1 = Except.ok defs1 := h2
          obtain ⟨xs, hg, hout⟩ := set_display_key_spec hsd
          have h1 := check_dependencies_aux_core rest params pdefs1 defs1 h3
          rw [h1, hout,
            defs_core_setKey pdefs hg (strip_display_setKey_display xs v)]

theorem check_dependencies_aux_not_mem :
    ∀ (wl : List (PyVal × PyVal)) (params pdefs defs1 : PyPairs) (n : PyVal),
      n ∉ wl.map Prod.fst →
      check_dependencies_aux params wl pdefs = .ok defs1 →
      defs1.get? n = pdefs.get? n
  | [], _, pdefs, defs1, n, _, h => by
    injection h with h2
    rw [h2]
  | (n0, dep0) :: rest, params, pdefs, defs1, n, hnm, h => by
    simp only [List.map_cons, List.mem_cons] at hnm
    push_neg at hnm
    obtain ⟨hne, hnr⟩ := hnm
    simp only [check_dependencies_aux] at h
    cases hdec : display_decision params dep0 with
    | error e =>
      rw [hdec] at h
      cases h
    | ok o =>
      rw [hdec] at h
      cases o with
      | none =>
        have h2 : check_dependencies_aux params rest pdefs = Except.ok defs1 := h
        exact check_dependencies_aux_not_mem rest params pdefs defs1 n hnr h2
      | some v =>
        have h2 : (set_display_key pdefs n0 v >>= fun pdefs1 =>
            check_dependencies_aux params rest pdefs1) = Except.ok defs1 := h
        cases hsd : set_display_key pdefs n0 v with
        | error e =>
          rw [hsd] at h2
          cases h2
        | ok pdefs1 =>
          rw [hsd] at h2
          have h3 : check_dependencies_aux params rest pdefs1 = Except.ok defs1 := h2
          obtain ⟨xs, hg, hout⟩ := set_display_key_spec hsd
          have h1 := check_dependencies_aux_not_mem rest params pdefs1 defs1 n hnr h3
          rw [h1, hout, PyPairs.get?_setKey_ne _ hne _]

theorem check_dependencies_aux_mem :
    ∀ (wl : List (PyVal × PyVal)) (params pdefs defs1 : PyPairs) (n dep : PyVal),
      (wl.map Prod.fst).Nodup → (n, dep) ∈ wl →
      check_dependencies_aux params wl pdefs = .ok defs1 →
      ∃ o, display_decision params dep = .ok o ∧
        ((o = Option.none ∧ defs1.get? n = pdefs.get? n) ∨
         (∃ v xs, o = some v ∧ pdefs.get? n = some (.dict xs) ∧
            defs1.get? n = some (.dict (xs.setKey (.str "display") v))))
  | [], _, _, _, _, _, _, hmem, _ => by cases hmem
  | (n0, dep0) :: rest, params, pdefs, defs1, n, dep, hnd, hmem, h => by
    simp only [List.map_cons, List.nodup_cons] at hnd
    obtain ⟨hn0, hndr⟩ := hnd
    simp only [check_dependencies_aux] at h
    rcases List.mem_cons.1 hmem with heq | hmem2
    · injection heq with heq1 heq2
      subst heq1
      subst heq2
      cases hdec : display_decision params dep with
      | error e =>
        rw [hdec] at h
        cases h
      | ok o =>
        rw [hdec] at h
        cases o with
        | none =>
          have h2 : check_dependencies_aux params rest pdefs = Except.ok defs1 := h
          exact ⟨Option.none, rfl,
            Or.inl ⟨rfl, check_dependencies_aux_not_mem rest params pdefs defs1 n hn0 h2⟩⟩
        | some v =>
          have h2 : (set_display_key pdefs n v >>= fun pdefs1 =>
              check_dependencies_aux params rest pdefs1) = Except.ok defs1 := h
          cases hsd : set_display_key pdefs n v with
          | error e =>
            rw [hsd] at h2
            cases h2
          | ok pdefs1 =>
            rw [hsd] at h2
            have h3 : check_dependencies_aux params rest pdefs1 = Except.ok defs1 := h2
            obtain ⟨xs, hg, hout⟩ := set_display_key_spec hsd
            refine ⟨some v, rfl, Or.inr ⟨v, xs, rfl, hg, ?_⟩⟩
            have h1 := check_dependencies_aux_not_mem rest params pdefs1 defs1 n hn0 h3
            rw [h1, hout, PyPairs.get?_setKey_self]
    · have hne : n ≠ n0 := by
        intro hh
        subst hh
        exact hn0 (List.mem_map.2 ⟨(n, dep), hmem2, rfl⟩)
      cases hdec : display_decision params dep0 with
      | error e =>
        rw [hdec] at h
        cases h
      | ok o =>
        rw [hdec] at h
        cases o with
        | none =>
          have h2 : check_dependencies_aux params rest pdefs = Except.ok defs1 := h
          exact check_dependencies_aux_mem rest params pdefs defs1 n dep hndr hmem2 h2
        | some v =>
          have h2 : (set_display_key pdefs n0 v >>= fun pdefs1 =>
              check_dependencies_aux params rest pdefs1) = Except.ok defs1 := h
          cases hsd : set_display_key pdefs n0 v with
          | error e =>
            rw [hsd] at h2
            cases h2
          | ok pdefs1 =>
            rw [hsd] at h2
            have h3 : check_dependencies_aux params rest pdefs1 = Except.ok defs1 := h2
            obtain ⟨xs, hg, hout⟩ := set_display_key_spec hsd
            have hrec := check_dependencies_aux_mem rest params pdefs1 defs1 n dep hndr hmem2 h3
            have hsame : pdefs1.get? n = pdefs.get? n := by
              rw [hout, PyPairs.get?_setKey_ne _ hne _]
            rw [hsame] at hrec
            exact hrec

theorem check_dependencies_aux_idem :
    ∀ (wl : List (PyVal × PyVal)) (params pdefs defs1 : PyPairs),
      (wl.map Prod.fst).Nodup →
      check_dependencies_aux params wl pdefs = .ok defs1 →
      check_dependencies_aux params wl defs1 = .ok defs1
  | [], _, pdefs, defs1, _, _ => rfl
  | (n0, dep0) :: rest, params, pdefs, defs1, hnd, h => by
    simp only [List.map_cons, List.nodup_cons] at hnd
    obtain ⟨hn0, hndr⟩ := hnd
    simp only [check_dependencies_aux] at h ⊢
    cases hdec : display_decision params dep0 with
    | error e =>
      rw [hdec] at h
      cases h
    | ok o =>
      rw [hdec] at h
      cases o with
      | none =>
        have h2 : check_dependencies_aux params rest pdefs = Except.ok defs1 := h
        exact check_dependencies_aux_idem rest params pdefs defs1 hndr h2
      | some v =>
        have h2 : (set_display_key pdefs n0 v >>= fun pdefs1 =>
            check_dependencies_aux params rest pdefs1) = Except.ok defs1 := h
        cases hsd : set_display_key pdefs n0 v with
        | error e =>
          rw [hsd] at h2
          cases h2
        | ok pdefs1 =>
          rw [hsd] at h2
          have h3 : check_dependencies_aux params rest pdefs1 = Except.ok defs1 := h2
          obtain ⟨xs, hg, hout⟩ := set_display_key_spec hsd
          have hrest := check_dependencies_aux_idem rest params pdefs1 defs1 hndr h3
          have hpres : defs1.get? n0 = pdefs1.get? n0 :=
            check_dependencies_aux_not_mem rest params pdefs1 defs1 n0 hn0 h3
          have hd1 : defs1.get? n0 = some (.dict (xs.setKey (.str "display") v)) := by
            rw [hpres, hout, PyPairs.get?_setKey_self]
          have hsd2 : set_display_key defs1 n0 v = .ok defs1 := by
            unfold set_display_key
            rw [hd1]
            simp only [PyPairs.setKey_setKey_same]
            rw [PyPairs.setKey_of_get?_eq defs1 hd1]
          show (set_display_key defs1 n0 v >>= fun pdefs1 =>
            check_dependencies_aux params rest pdefs1) = Except.ok defs1
          rw [hsd2]
          exact hrest

theorem dep_list_names_sublist (d : PyPairs) :
    ((dep_list d).map Prod.fst).Sublist d.keyList := by
  rw [PyPairs.keyList_eq_toList]
  unfold dep_list
  generalize d.toList = l
  induction l with
  | nil => simp
  | cons p t ih =>
    simp only [List.filterMap_cons, List.map_cons]
    cases hf : (match p.2 with
        | PyVal.dict xs =>
            Option.map (fun dv => (p.1, dv)) (xs.get? (PyVal.str "dependency"))
        | _ => Option.none) with
    | none => exact ih.cons p.1
    | some q =>
      have hq : q.1 = p.1 := by
        cases hv : p.2 <;> simp only [hv] at hf
        case dict xs =>
          rcases Option.map_eq_some'.1 hf with ⟨dv, hg2, hb⟩
          rw [← hb]
        all_goals cases hf
      simp only [List.map_cons]
      rw [hq]
      exact ih.cons₂ p.1

theorem dep_list_names_nodup {d : PyPairs} (h : d.keyList.Nodup) :
    ((dep_list d).map Prod.fst).Nodup :=
  (dep_list_names_sublist d).nodup h

theorem mem_dep_list {d : PyPairs} {n dep : PyVal} {xs : PyPairs}
    (h : d.get? n = some (.dict xs))
    (hdep : xs.get? (.str "dependency") = some dep) :
    (n, dep) ∈ dep_list d := by
  unfold dep_list
  refine List.mem_filterMap.2 ⟨(n, PyVal.dict xs), PyPairs.get?_mem_toList d h, ?_⟩
  simp [hdep]

/-! ## Frame effect of `warn_dependents` on the description fields -/

theorem pySub_dict_ok {xs : PyPairs} {k v : PyVal}
    (h : pySub (.dict xs) k = .ok v) : xs.get? k = some v := by
  have h2 : (match xs.get? k with
    | some w => (Except.ok w : Except PyErr PyVal)
    | Option.none => Except.error (PyErr.keyError k)) = Except.ok v := h
  cases hg : xs.get? k with
  | none => rw [hg] at h2; cases h2
  | some w =>
    rw [hg] at h2
    injection h2 with h3
    rw [h3]

theorem scrub_range_setKey_range (ds : PyPairs) (m : PyVal) :
    scrub_range (.dict (ds.setKey (.str "range") m)) = scrub_range (.dict ds) := by
  simp [scrub_range, PyPairs.removeKey_setKey_same]

theorem scrub_description_setKey (ps : PyPairs) {v v' : PyVal}
    (h : ps.get? (.str "description") = some v)
    (hs : scrub_range v' = scrub_range v) :
    scrub_description (ps.setKey (.str "description") v') = scrub_description ps := by
  induction ps using PyPairs.inductionOn with
  | nil => simp [PyPairs.get?] at h
  | cons k0 v0 rest ih =>
    by_cases h0 : k0 = PyVal.str "description"
    · subst h0
      simp [PyPairs.get?] at h
      subst h
      simp [PyPairs.setKey, scrub_description, hs]
    · simp only [PyPairs.get?, if_neg h0] at h
      simp [PyPairs.setKey, h0, scrub_description, ih h]

theorem make_recommendation_spec {n desc pn value : PyVal} {res : PyVal × String}
    (h : make_recommendation n desc pn value = .ok res) :
    ∃ xs, desc = .dict xs ∧
      res.1 = .dict (xs.setKey (.str "range")
        (.str ("The recommended value with the chosen " ++ pyStr pn
          ++ " would be " ++ pyStr value))) := by
  unfold make_recommendation at h
  cases desc <;> try (cases h)
  rename_i xs
  exact ⟨xs, rfl, rfl⟩

theorem warn_dependents_entry_desc {mp mv n r r' : PyVal} {msgs : List String}
    (h : warn_dependents_entry mp mv n r = .ok (r', msgs)) :
    strip_desc_range r' = strip_desc_range r := by
  unfold warn_dependents_entry at h
  cases hd : pySub r (PyVal.str "default") with
  | error e => rw [hd] at h; cases h
  | ok d =>
    rw [hd] at h
    have h1 : (if d.isDict = true then
        (firstKeyOf d >>= fun parentName =>
          if parentName = mp then
            (pySub d parentName >>= fun branches =>
              match branches with
              | PyVal.dict bs =>
                if bs.hasKey mv = true then
                  (pySub branches mv >>= fun value =>
                    pySub r (PyVal.str "description") >>= fun desc =>
                    make_recommendation n desc parentName value >>= fun res =>
                    match r with
                    | PyVal.dict ps =>
                        Except.ok (PyVal.dict (ps.setKey (PyVal.str "description") res.1), [res.2])
                    | _ => Except.error (PyErr.typeError "object does not support item assignment"))
                else Except.ok (r, [])
              | _ => Except.error (PyErr.attributeError "keys"))
          else Except.ok (r, []))
      else Except.ok (r, [])) = Except.ok (r', msgs) := h
    clear h
    split at h1
    case isFalse =>
      injection h1 with hp
      cases hp
      rfl
    case isTrue =>
      cases hfk : firstKeyOf d with
      | error e => rw [hfk] at h1; cases h1
      | ok parentName =>
        rw [hfk] at h1
        have h2 : (if parentName = mp then
            (pySub d parentName >>= fun branches =>
              match branches with
              | PyVal.dict bs =>
                if bs.hasKey mv = true then
                  (pySub branches mv >>= fun value =>
                    pySub r (PyVal.str "description") >>= fun desc =>
                    make_recommendation n desc parentName value >>= fun res =>
                    match r with
                    | PyVal.dict ps =>
                        Except.ok (PyVal.dict (ps.setKey (PyVal.str "description") res.1), [res.2])
                    | _ => Except.error (PyErr.typeError "object does not support item assignment"))
                else Except.ok (r, [])
              | _ => Except.error (PyErr.attributeError "keys"))
          else Except.ok (r, [])) = Except.ok (r', msgs) := h1
        clear h1
        split at h2
        case isFalse =>
          injection h2 with hp
          cases hp
          rfl
        case isTrue =>
          cases hbr : pySub d parentName with
          | error e => rw [hbr] at h2; cases h2
          | ok branches =>
            rw [hbr] at h2
            cases branches <;> try (cases h2)
            rename_i bs
            have h3 : (if bs.hasKey mv = true then
                (pySub (PyVal.dict bs) mv >>= fun value =>
                  pySub r (PyVal.str "description") >>= fun desc =>
                  make_recommendation n desc parentName value >>= fun res =>
                  match r with
                  | PyVal.dict ps =>
                      Except.ok (PyVal.dict (ps.setKey (PyVal.str "description") res.1), [res.2])
                  | _ => Except.error (PyErr.typeError "object does not support item assignment"))
              else Except.ok (r, [])) = Except.ok (r', msgs) := h2
            clear h2
            split at h3
            case isFalse =>
              injection h3 with hp
              cases hp
              rfl
            case isTrue =>
              cases hval : pySub (PyVal.dict bs) mv with
              | error e => rw [hval] at h3; cases h3
              | ok value =>
                rw [hval] at h3
                have h4 : (pySub r (PyVal.str "description") >>= fun desc =>
                    make_recommendation n desc parentName value >>= fun res =>
                    match r with
                    | PyVal.dict ps =>
                        Except.ok (PyVal.dict (ps.setKey (PyVal.str "description") res.1), [res.2])
                    | _ => Except.error (PyErr.typeError "object does not support item assignment")) =
                    Except.ok (r', msgs) := h3
                clear h3
                cases hdesc : pySub r (PyVal.str "description") with
                | error e => rw [hdesc] at h4; cases h4
                | ok desc =>
                  rw [hdesc] at h4
                  have h5 : (make_recommendation n desc parentName value >>= fun res =>
                      match r with
                      | PyVal.dict ps =>
                          Except.ok (PyVal.dict (ps.setKey (PyVal.str "description") res.1), [res.2])
                      | _ => Except.error (PyErr.typeError "object does not support item assignment")) =
                      Except.ok (r', msgs) := h4
                  clear h4
                  cases hmr : make_recommendation n desc parentName value with
                  | error e => rw [hmr] at h5; cases h5
                  | ok res =>
                    rw [hmr] at h5
                    have h6 : (match r with
                        | PyVal.dict ps =>
                            (Except.ok (PyVal.dict (ps.setKey (PyVal.str "description") res.1), [res.2]) :
                              Except PyErr (PyVal × List String))
                        | _ => Except.error (PyErr.typeError "object does not support item assignment")) =
                        Except.ok (r', msgs) := h5
                    clear h5
                    cases r <;> try (cases h6)
                    rename_i ps
                    obtain ⟨xs, hdx, hres⟩ := make_recommendation_spec hmr
                    have hget : ps.get? (PyVal.str "description") = some desc :=
                      pySub_dict_ok hdesc
                    show strip_desc_range
                        (PyVal.dict (ps.setKey (PyVal.str "description") res.1)) =
                      strip_desc_range (PyVal.dict ps)
                    simp only [strip_desc_range]
                    rw [scrub_description_setKey ps hget]
                    rw [hres]
                    subst hdx
                    exact scrub_range_setKey_range xs _

theorem warn_dependents_desc_core :
    ∀ (d : PyPairs) (mp mv : PyVal) (out : PyPairs × List String),
      warn_dependents mp mv d = .ok out →
      defs_desc_core out.1 = defs_desc_core d
  | PyPairs.nil, mp, mv, out, h => by
    injection h with h2
    cases h2
    rfl
  | PyPairs.cons name pdict rest, mp, mv, out, h => by
    simp only [warn_dependents] at h
    cases he : warn_dependents_entry mp mv name pdict with
    | error e => rw [he] at h; cases h
    | ok res =>
      rw [he] at h
      have h2 : (warn_dependents mp mv rest >>= fun res2 =>
          Except.ok (PyPairs.cons name res.1 res2.1, res.2 ++ res2.2)) =
          Except.ok out := h
      cases hr : warn_dependents mp mv rest with
      | error e => rw [hr] at h2; cases h2
      | ok res2 =>
        rw [hr] at h2
        injection h2 with h3
        cases h3
        have hround := warn_dependents_desc_core rest mp mv res2 hr
        obtain ⟨r1, msgs1⟩ := res
        have hentry : strip_desc_range r1 = strip_desc_range pdict :=
          warn_dependents_entry_desc he
        simp only [defs_desc_core]
        rw [hentry, hround]

/-! ## Key preservation of the override machinery -/

theorem check_multi_params_hasKey
    {isM : PyVal → PyVal → Bool} {conv : PyVal → PyVal → PyVal × Option String}
    {params : PyPairs} {plugin : PluginState} {value key : PyVal}
    {p1 : PyPairs} {pl1 : PluginState}
    (hk : params.hasKey key = true)
    (h : check_multi_params isM conv params plugin value key = .ok (p1, pl1)) :
    ∀ k2, p1.hasKey k2 = params.hasKey k2 := by
  unfold check_multi_params at h
  by_cases him : isM key value = true
  · rw [if_pos him] at h
    cases hcv : conv key value with
    | mk w err =>
      rw [hcv] at h
      cases err with
      | some e =>
        have h2 : (Except.ok (params, plugin) :
            Except PyErr (PyPairs × PluginState)) = Except.ok (p1, pl1) := h
        injection h2 with hp
        cases hp
        intro k2
        rfl
      | none =>
        have h2 : ((match key with
            | PyVal.str s => (Except.ok s : Except PyErr String)
            | _ => Except.error (PyErr.typeError "can only concatenate str to str")) >>=
              fun keyStr =>
            pySub w (PyVal.int 0) >>= fun first =>
            pyLen w >>= fun nn =>
            Except.ok (params.setKey key w,
              append_extra_dims
                (alter_multi_params_dict plugin plugin.multi_params_dict.length
                  (PyVal.dict (PyPairs.cons (PyVal.str "label")
                    (PyVal.str (keyStr ++ "_params." ++ pyTypeName first))
                    (PyPairs.cons (PyVal.str "values") w PyPairs.nil)))) nn)) =
            Except.ok (p1, pl1) := h
        clear h
        cases key <;> try (cases h2)
        rename_i s
        cases hsub : pySub w (PyVal.int 0) with
        | error e => rw [hsub] at h2; cases h2
        | ok first =>
          rw [hsub] at h2
          have h3 : (pyLen w >>= fun nn =>
              Except.ok (params.setKey (PyVal.str s) w,
                append_extra_dims
                  (alter_multi_params_dict plugin plugin.multi_params_dict.length
                    (PyVal.dict (PyPairs.cons (PyVal.str "label")
                      (PyVal.str (s ++ "_params." ++ pyTypeName first))
                      (PyPairs.cons (PyVal.str "values") w PyPairs.nil)))) nn)) =
              Except.ok (p1, pl1) := h2
          clear h2
          cases hlen : pyLen w with
          | error e => rw [hlen] at h3; cases h3
          | ok nn =>
            rw [hlen] at h3
            injection h3 with hp
            cases hp
            intro k2
            exact PyPairs.hasKey_setKey params hk w k2
  · rw [if_neg him] at h
    injection h with hp
    cases hp
    intro k2
    exact PyPairs.hasKey_setKey params hk value k2

/-! ## Evaluation lemmas for `display_decision` -/

theorem display_decision_dict_present {params : PyPairs} {pn pv : PyVal}
    {choices : PyVal} {t : PyPairs} {b : Bool}
    (h1 : params.get? pn = some pv)
    (h2 : pyIn (.str (pyStr pv)) choices = .ok b) :
    display_decision params (.dict (PyPairs.cons pn choices t)) =
      .ok (some (.str (if b then "on" else "off"))) := by
  have hstep : display_decision params (.dict (PyPairs.cons pn choices t)) =
      (match params.get? pn with
        | some pv => (pyIn (.str (pyStr pv)) choices >>= fun b =>
            Except.ok (some (.str (if b then "on" else "off"))))
        | Option.none => Except.ok Option.none) := by
    unfold display_decision
    rw [if_pos]
    · show (pySub (PyVal.dict (PyPairs.cons pn choices t)) pn >>= fun choices => _) = _
      have hc : pySub (PyVal.dict (PyPairs.cons pn choices t)) pn = Except.ok choices := by
        show (match (PyPairs.cons pn choices t).get? pn with
          | some v => (Except.ok v : Except PyErr PyVal)
          | Option.none => Except.error (PyErr.keyError pn)) = Except.ok choices
        simp [PyPairs.get?]
      rw [hc]
      rfl
    · rfl
  rw [hstep, h1]
  show (pyIn (PyVal.str (pyStr pv)) choices >>= fun b =>
    Except.ok (some (PyVal.str (if b then "on" else "off")))) =
    Except.ok (some (PyVal.str (if b then "on" else "off")))
  rw [h2]
  rfl

theorem display_decision_dict_absent {params : PyPairs} {pn : PyVal}
    {choices : PyVal} {t : PyPairs}
    (h1 : params.get? pn = Option.none) :
    display_decision params (.dict (PyPairs.cons pn choices t)) =
      .ok Option.none := by
  have hstep : display_decision params (.dict (PyPairs.cons pn choices t)) =
      (match params.get? pn with
        | some pv => (pyIn (.str (pyStr pv)) choices >>= fun b =>
            Except.ok (some (.str (if b then "on" else "off"))))
        | Option.none => Except.ok Option.none) := by
    unfold display_decision
    rw [if_pos]
    · show (pySub (PyVal.dict (PyPairs.cons pn choices t)) pn >>= fun choices => _) = _
      have hc : pySub (PyVal.dict (PyPairs.cons pn choices t)) pn = Except.ok choices := by
        show (match (PyPairs.cons pn choices t).get? pn with
          | some v => (Except.ok v : Except PyErr PyVal)
          | Option.none => Except.error (PyErr.keyError pn)) = Except.ok choices
        simp [PyPairs.get?]
      rw [hc]
      rfl
    · rfl
  rw [hstep, h1]

theorem display_decision_plain_present {params : PyPairs} {dep pv : PyVal}
    (hnd : dep.isDict = false)
    (h1 : params.get? dep = some pv) :
    display_decision params dep =
      .ok (some (.str (if pv = PyVal.none || pyStr pv = "None" then "off" else "on"))) := by
  unfold display_decision
  rw [if_neg (by rw [hnd]; exact Bool.false_ne_true), h1]

theorem display_decision_plain_absent {params : PyPairs} {dep : PyVal}
    (hnd : dep.isDict = false)
    (h1 : params.get? dep = Option.none) :
    display_decision params dep = .ok Option.none := by
  unfold display_decision
  rw [if_neg (by rw [hnd]; exact Bool.false_ne_true), h1]

/-! ## The claims -/

/-- C1: the spec claims that for the depth-2 dependency-descriptor chain
(A depends on B, B depends on C, C literal, with C = 2,
B default `\x7bC: \x7b2: "x"\x7d\x7d`, A default `\x7bB: \x7b"x": 42\x7d\x7d`)
resolving the defaults terminates and sets A to 42.  On the code, the
recursive call of `get_dependent_default` passes the raw default mapping
`parent["default"]` instead of the parent definition record, so the recursion
immediately subscripts that mapping with the key `"default"` and the whole
pass raises `KeyError("default")` for any recursion budget. -/
theorem claim1_chain_default_resolution_raises_key_error :
    ∀ fuel : Nat,
      populate_default_parameters (fuel + 2) defs_chain =
        .error (.keyError (.str "default")) := by
  intro fuel
  rfl

/-- C2: the spec claims every non-hidden parameter lacking one of
\x7bdtype, description, visibility, default\x7d fails validation regardless of the
position of hidden parameters.  On the code, meeting a hidden parameter
permanently shrinks the loop-carried `required_keys` to `["default"]`, so a
later non-hidden parameter carrying only `default` passes: on
`pinfo_hidden_leak` the check succeeds and no missing key is collected. -/
theorem claim2_hidden_visibility_leak_passes_required_keys :
    check_required_keys pinfo_hidden_leak "ExampleTools" = .ok () ∧
    missing_key_loop pinfo_hidden_leak.toList required_keys_init [] = .ok [] :=
  ⟨rfl, rfl⟩

/-- C3 (counterexample): the claim says a mapping dependency whose parent is
absent from the value mapping turns the display flag off; on the code the
loop skips such parameters entirely, so the flag keeps its prior value
(initially `"on"`). -/
theorem claim3_counterexample_absent_parent_display_stays_on :
    check_dependencies defs_dep_absent params_dep_absent = .ok defs_dep_absent ∧
    (pySub (PyVal.dict defs_dep_absent) (PyVal.str "child") >>= fun r =>
      pySub r (PyVal.str "display")) = .ok (.str "on") :=
  ⟨rfl, rfl⟩

/-- C3 (amended): after `check_dependencies` runs over the current value
mapping, a parameter with a mapping dependency whose parent is present gets
display `on` exactly when the stringified parent value passes the membership
test against the allowed set, and a parameter with a plain-name dependency
whose parent is present gets display `off` exactly when the parent value is
`None` or stringifies to `"None"`; when the parent is absent from the value
mapping (in either form) the record is left completely unchanged. -/
theorem claim3_display_after_check_dependencies
    (pdefs params defs1 : PyPairs) (hnd : pdefs.keyList.Nodup)
    (h : check_dependencies pdefs params = .ok defs1)
    (name : PyVal) (xs : PyPairs)
    (hr : pdefs.get? name = some (.dict xs))
    (dep : PyVal) (hdep : xs.get? (.str "dependency") = some dep) :
    (∀ pn choices t pv b, dep = .dict (PyPairs.cons pn choices t) →
      params.get? pn = some pv →
      pyIn (.str (pyStr pv)) choices = .ok b →
      defs1.get? name = some (.dict (xs.setKey (.str "display")
        (.str (if b then "on" else "off"))))) ∧
    (∀ pn choices t, dep = .dict (PyPairs.cons pn choices t) →
      params.get? pn = Option.none →
      defs1.get? name = some (.dict xs)) ∧
    (∀ pv, dep.isDict = false → params.get? dep = some pv →
      defs1.get? name = some (.dict (xs.setKey (.str "display")
        (.str (if pv = PyVal.none || pyStr pv = "None" then "off" else "on"))))) ∧
    (dep.isDict = false → params.get? dep = Option.none →
      defs1.get? name = some (.dict xs)) := by
  have hmem := mem_dep_list hr hdep
  have hnd2 := dep_list_names_nodup hnd
  have h2 : check_dependencies_aux params (dep_list pdefs) pdefs = .ok defs1 := h
  obtain ⟨o, hdec, hcase⟩ :=
    check_dependencies_aux_mem (dep_list pdefs) params pdefs defs1 name dep hnd2 hmem h2
  refine ⟨?_, ?_, ?_, ?_⟩
  · intro pn choices t pv b hdx hpv hin
    subst hdx
    rw [display_decision_dict_present hpv hin] at hdec
    injection hdec with ho
    rcases hcase with ⟨hno, _⟩ | ⟨v, xs2, hov, hg2, hd2⟩
    · rw [← ho] at hno; cases hno
    · rw [← ho] at hov
      injection hov with hv2
      rw [hr] at hg2
      injection hg2 with hg3
      injection hg3 with hg4
      rw [hd2, ← hg4, hv2]
  · intro pn choices t hdx hpv
    subst hdx
    rw [display_decision_dict_absent hpv] at hdec
    injection hdec with ho
    rcases hcase with ⟨hno, heq⟩ | ⟨v, xs2, hov, hg2, hd2⟩
    · rw [heq, hr]
    · rw [← ho] at hov; cases hov
  · intro pv hdict hpv
    rw [display_decision_plain_present hdict hpv] at hdec
    injection hdec with ho
    rcases hcase with ⟨hno, _⟩ | ⟨v, xs2, hov, hg2, hd2⟩
    · rw [← ho] at hno; cases hno
    · rw [← ho] at hov
      injection hov with hv2
      rw [hr] at hg2
      injection hg2 with hg3
      injection hg3 with hg4
      rw [hd2, ← hg4, hv2]
  · intro hdict hpv
    rw [display_decision_plain_absent hdict hpv] at hdec
    injection hdec with ho
    rcases hcase with ⟨hno, heq⟩ | ⟨v, xs2, hov, hg2, hd2⟩
    · rw [heq, hr]
    · rw [← ho] at hov; cases hov

/-- C3 (witness): the amended theorem applied to `defs_dep_present` with
`mode = "manual"`: the `frame` parameter ends with display `on`. -/
theorem claim3_witness :
    defs_dep_present.keyList.Nodup ∧
    check_dependencies defs_dep_present params_dep_present = .ok defs_dep_present ∧
    defs_dep_present.get? (.str "frame") = some (.dict frame_fields) ∧
    frame_fields.get? (.str "dependency") =
      some (.dict (PyPairs.cons (.str "mode")
        (.list (PyList.cons (.str "manual") PyList.nil)) PyPairs.nil)) ∧
    params_dep_present.get? (.str "mode") = some (.str "manual") ∧
    pyIn (.str (pyStr (.str "manual")))
      (.list (PyList.cons (.str "manual") PyList.nil)) = .ok true ∧
    defs_dep_present.get? (.str "frame") =
      some (.dict (frame_fields.setKey (.str "display") (.str "on"))) := by
  refine ⟨by decide, rfl, rfl, rfl, rfl, rfl, ?_⟩
  exact (claim3_display_after_check_dependencies defs_dep_present params_dep_present
    defs_dep_present (by decide) rfl (.str "frame") frame_fields rfl _ rfl).1
    (.str "mode") (.list (PyList.cons (.str "manual") PyList.nil)) PyPairs.nil
    (.str "manual") true rfl rfl rfl

/-- C4: when an override matches the multi-value syntax and conversion
succeeds with a non-empty typed sequence, the sequence becomes the current
value of the parameter, exactly one sweep entry is registered at the next
free sweep index with label `<key>_params.<element-type-name>` and the
sequence as values, and the orchestration layer is told about
`len(sequence)` additional execution instances. -/
theorem claim4_multi_param_success_registers_sweep
    (isM : PyVal → PyVal → Bool) (conv : PyVal → PyVal → PyVal × Option String)
    (params : PyPairs) (plugin : PluginState) (value : PyVal)
    (s : String) (v0 : PyVal) (vs : PyList)
    (him : isM (.str s) value = true)
    (hcv : conv (.str s) value = (.list (PyList.cons v0 vs), Option.none)) :
    check_multi_params isM conv params plugin value (.str s) =
      .ok (params.setKey (.str s) (.list (PyList.cons v0 vs)),
        { multi_params_dict := plugin.multi_params_dict.setKey
            (.int plugin.multi_params_dict.length)
            (.dict (PyPairs.cons (.str "label")
              (.str (s ++ "_params." ++ pyTypeName v0))
              (PyPairs.cons (.str "values") (.list (PyList.cons v0 vs)) PyPairs.nil))),
          extra_dims := plugin.extra_dims.push
            (.int ((PyList.cons v0 vs).length)) }) := by
  unfold check_multi_params
  rw [if_pos him, hcv]
  rfl

/-- C4 (witness): override `"1;2;3"` for the float-typed key `"threshold"`
yields current value `[1.0, 2.0, 3.0]` and one sweep entry with 3 elements. -/
theorem claim4_witness :
    spec_is_multi_param (.str "threshold") (.str "1;2;3") = true ∧
    spec_convert_multi_float (.str "threshold") (.str "1;2;3") =
      (floats123, Option.none) ∧
    check_multi_params spec_is_multi_param spec_convert_multi_float
        params_sweep plugin_empty (.str "1;2;3") (.str "threshold") =
      .ok (params_sweep.setKey (.str "threshold") floats123,
        { multi_params_dict := plugin_empty.multi_params_dict.setKey (.int 0)
            (.dict (PyPairs.cons (.str "label") (.str "threshold_params.float")
              (PyPairs.cons (.str "values") floats123 PyPairs.nil))),
          extra_dims := plugin_empty.extra_dims.push (.int 3) }) := by
  refine ⟨by decide, by decide, ?_⟩
  exact claim4_multi_param_success_registers_sweep spec_is_multi_param
    spec_convert_multi_float params_sweep plugin_empty (.str "1;2;3")
    "threshold" (.float 1) (PyList.cons (.float 2) (PyList.cons (.float 3) PyList.nil))
    (by decide) (by decide)

/-- C5 (counterexample): the claim says a failed multi-value conversion
raises `ValueError`; on the code the error branch of `__check_multi_params`
does nothing, so the call returns with the value mapping and the sweep state
unchanged and no exception. -/
theorem claim5_counterexample_no_value_error :
    check_multi_params spec_is_multi_param spec_convert_multi_float
      params_sweep plugin_empty (.str "1;oops;3") (.str "threshold") =
      .ok (params_sweep, plugin_empty) := rfl

/-- C5 (amended): when an override matches the multi-value syntax but the
conversion fails with an error string, the override is silently dropped: the
parameter keeps its previous value, no sweep entry is registered and no
exception is raised. -/
theorem claim5_failed_conversion_silently_dropped
    (isM : PyVal → PyVal → Bool) (conv : PyVal → PyVal → PyVal × Option String)
    (params : PyPairs) (plugin : PluginState) (value key w : PyVal) (e : String)
    (him : isM key value = true)
    (hcv : conv key value = (w, some e)) :
    check_multi_params isM conv params plugin value key = .ok (params, plugin) := by
  unfold check_multi_params
  rw [if_pos him, hcv]

/-- C5 (witness): the amended theorem applied to the malformed override
`"1;oops;3"`. -/
theorem claim5_witness :
    spec_is_multi_param (.str "threshold") (.str "1;oops;3") = true ∧
    (spec_convert_multi_float (.str "threshold") (.str "1;oops;3")).2 =
      some "Invalid multi parameter syntax in segment of 1;oops;3" ∧
    check_multi_params spec_is_multi_param spec_convert_multi_float
      params_sweep plugin_empty (.str "1;oops;3") (.str "threshold") =
      .ok (params_sweep, plugin_empty) := by
  refine ⟨by decide, by decide, ?_⟩
  exact claim5_failed_conversion_silently_dropped spec_is_multi_param
    spec_convert_multi_float params_sweep plugin_empty (.str "1;oops;3")
    (.str "threshold") (.str "1;oops;3")
    "Invalid multi parameter syntax in segment of 1;oops;3" (by decide) (by decide)

/-- C6 (counterexample): the claim says an override mapping with an unknown
key causes `ValueError` with no mutation at all, including for known keys in
the same mapping; on the code the keys are processed in order, so the known
key `a` is already overwritten to 5 when the unknown key `zz` raises. -/
theorem claim6_counterexample_known_key_mutated_before_error :
    set_plugin_list_parameters spec_is_multi_param spec_convert_multi_float
      "MedianFilter" [(.str "a", .int 5), (.str "zz", .int 9)]
      params_override plugin_empty =
      .error (.valueError (unknown_key_message (.str "zz") "MedianFilter"),
        params_override_mutated, plugin_empty) ∧
    params_override_mutated ≠ params_override :=
  ⟨rfl, by decide⟩

/-- C6 (amended): an override mapping containing an unknown key raises
`ValueError` naming the first unknown key (in iteration order) and the plugin
class name; the overrides for known keys placed before it have already been
applied when the error is raised, and the unknown key itself causes no
mutation. -/
theorem claim6_unknown_key_raises_value_error :
    ∀ (isM : PyVal → PyVal → Bool)
      (conv : PyVal → PyVal → PyVal × Option String) (pname : String)
      (pre : List (PyVal × PyVal)) (params : PyPairs) (plugin : PluginState)
      (p1 : PyPairs) (pl1 : PluginState) (k v : PyVal)
      (rest : List (PyVal × PyVal)),
      set_plugin_list_parameters isM conv pname pre params plugin = .ok (p1, pl1) →
      params.hasKey k = false →
      set_plugin_list_parameters isM conv pname (pre ++ (k, v) :: rest)
          params plugin =
        .error (.valueError (unknown_key_message k pname), p1, pl1)
  | isM, conv, pname, [], params, plugin, p1, pl1, k, v, rest, h, hk => by
    injection h with hp
    cases hp
    show set_plugin_list_parameters isM conv pname ((k, v) :: rest) params plugin = _
    unfold set_plugin_list_parameters
    rw [if_neg (by rw [hk]; exact Bool.false_ne_true)]
  | isM, conv, pname, (k0, v0) :: pre2, params, plugin, p1, pl1, k, v, rest, h, hk => by
    unfold set_plugin_list_parameters at h
    split at h
    case isFalse => cases h
    case isTrue hhk =>
      cases hcmp : check_multi_params isM conv params plugin v0 k0 with
      | error e => rw [hcmp] at h; cases h
      | ok q =>
        rw [hcmp] at h
        obtain ⟨p2, pl2⟩ := q
        have h2 : set_plugin_list_parameters isM conv pname pre2 p2 pl2 =
            Except.ok (p1, pl1) := h
        have hk2 : p2.hasKey k = false := by
          rw [check_multi_params_hasKey hhk hcmp k]
          exact hk
        have hrec := claim6_unknown_key_raises_value_error isM conv pname pre2
          p2 pl2 p1 pl1 k v rest h2 hk2
        show set_plugin_list_parameters isM conv pname
          ((k0, v0) :: (pre2 ++ (k, v) :: rest)) params plugin = _
        unfold set_plugin_list_parameters
        rw [if_pos hhk, hcmp]
        exact hrec

/-- C6 (witness): a known override before an unknown key: the error names the
unknown key and the plugin class, with the known key already applied. -/
theorem claim6_witness :
    set_plugin_list_parameters spec_is_multi_param spec_convert_multi_float
      "MedianFilter" [(.str "b", .int 7)] params_override plugin_empty =
      .ok (PyPairs.cons (.str "a") (.int 1)
        (PyPairs.cons (.str "b") (.int 7) PyPairs.nil), plugin_empty) ∧
    params_override.hasKey (.str "zz") = false ∧
    set_plugin_list_parameters spec_is_multi_param spec_convert_multi_float
      "MedianFilter" [(.str "b", .int 7), (.str "zz", .none)]
      params_override plugin_empty =
      .error (.valueError (unknown_key_message (.str "zz") "MedianFilter"),
        PyPairs.cons (.str "a") (.int 1)
          (PyPairs.cons (.str "b") (.int 7) PyPairs.nil), plugin_empty) := by
  refine ⟨rfl, by decide, ?_⟩
  exact claim6_unknown_key_raises_value_error spec_is_multi_param
    spec_convert_multi_float "MedianFilter" [(.str "b", .int 7)]
    params_override plugin_empty
    (PyPairs.cons (.str "a") (.int 1)
      (PyPairs.cons (.str "b") (.int 7) PyPairs.nil)) plugin_empty
    (.str "zz") .none [] rfl (by decide)

/-- C7: the spec claims an unknown dtype token inside a list-valued dtype is
fatal.  On the code, the list branch of `_check_dtype` prints the report but
never clears `dtype_valid`, so a parameter whose dtype list contains a token
outside the registry passes validation for every registry. -/
theorem claim7_unknown_dtype_list_token_passes_validation :
    ∀ typeDict : List PyVal, (PyVal.str "bogus") ∉ typeDict →
      check_dtype typeDict pinfo_dtype_list "ExampleTools" = .ok () := by
  intro td h
  rfl

/-- C7 (witness): the concrete registry `["int", "float", "str"]` does not
contain `"bogus"`, yet validation of the block succeeds. -/
theorem claim7_witness :
    (PyVal.str "bogus") ∉ [PyVal.str "int", PyVal.str "float", PyVal.str "str"] ∧
    check_dtype [PyVal.str "int", PyVal.str "float", PyVal.str "str"]
      pinfo_dtype_list "ExampleTools" = .ok () :=
  ⟨by decide, claim7_unknown_dtype_list_token_passes_validation
    [PyVal.str "int", PyVal.str "float", PyVal.str "str"] (by decide)⟩

/-- C8 (counterexample): the claim says the definition records (in particular
the description) are immutable after loading; on the code
`make_recommendation` writes a `range` entry into the description mapping of
the dependent parameter, so `warn_dependents` mutates the definitions. -/
theorem claim8_counterexample_description_mutated :
    warn_dependents (.str "mode") (.str "manual") defs_recommend =
      .ok (defs_recommend_after,
        ["It\x27s recommended that you update child to 10"]) ∧
    defs_recommend_after ≠ defs_recommend ∧
    (pySub (PyVal.dict defs_recommend_after) (.str "child") >>= fun r =>
      pySub r (.str "description") >>= fun d => pySub d (.str "range")) =
      .ok (.str "The recommended value with the chosen mode would be 10") ∧
    (pySub (PyVal.dict defs_recommend) (.str "child") >>= fun r =>
      pySub r (.str "description") >>= fun d => pySub d (.str "range")) =
      .error (.keyError (.str "range")) :=
  ⟨rfl, by decide, rfl, rfl⟩

/-- C8 (amended): after loading, the subsequent operations mutate only the
current value-set, the per-parameter display flags, and — through the
advisory recommendation side effect — the `range` entry inside the
description mapping of a dependent parameter: `check_dependencies` preserves
every record up to the display flag, and `warn_dependents` preserves every
record up to the `range` entry of its description. -/
theorem claim8_mutation_frame :
    (∀ (pdefs params defs1 : PyPairs),
      check_dependencies pdefs params = .ok defs1 →
      defs_core defs1 = defs_core pdefs) ∧
    (∀ (pdefs : PyPairs) (mp mv : PyVal) (out : PyPairs × List String),
      warn_dependents mp mv pdefs = .ok out →
      defs_desc_core out.1 = defs_desc_core pdefs) := by
  constructor
  · intro pdefs params defs1 h
    exact check_dependencies_aux_core (dep_list pdefs) params pdefs defs1 h
  · intro pdefs mp mv out h
    exact warn_dependents_desc_core pdefs mp mv out h

/-- C8 (witness): the frame theorem applied to a display write and to a
recommendation write. -/
theorem claim8_witness :
    check_dependencies defs_idem params_idem_after = .ok defs_idem_after ∧
    defs_core defs_idem_after = defs_core defs_idem ∧
    warn_dependents (.str "mode") (.str "manual") defs_recommend =
      .ok (defs_recommend_after,
        ["It\x27s recommended that you update child to 10"]) ∧
    defs_desc_core defs_recommend_after = defs_desc_core defs_recommend := by
  refine ⟨rfl, ?_, rfl, ?_⟩
  · exact claim8_mutation_frame.1 defs_idem params_idem_after defs_idem_after rfl
  · exact claim8_mutation_frame.2 defs_recommend (.str "mode") (.str "manual")
      (defs_recommend_after,
        ["It\x27s recommended that you update child to 10"]) rfl

/-- C9: running the default-resolution pass
(`_populate_default_parameters`: rebuild the value mapping from the declared
defaults, resolve dependent defaults, recompute display flags) twice in
succession yields the same definitions and the same current-value mapping:
whenever the pass succeeds, it is idempotent. -/
theorem claim9_default_resolution_idempotent
    (fuel : Nat) (pdefs defs1 params1 : PyPairs)
    (hnd : pdefs.keyList.Nodup)
    (h : populate_default_parameters fuel pdefs = .ok (defs1, params1)) :
    populate_default_parameters fuel defs1 = .ok (defs1, params1) := by
  unfold populate_default_parameters at h
  cases hdvm : default_value_map pdefs.toList PyPairs.nil with
  | error e => rw [hdvm] at h; cases h
  | ok params0 =>
    rw [hdvm] at h
    have h2 : (update_dependent_defaults fuel pdefs params0 >>= fun params1x =>
        check_dependencies pdefs params1x >>= fun pdefs1 =>
        Except.ok (pdefs1, params1x)) = Except.ok (defs1, params1) := h
    clear h
    cases hudd : update_dependent_defaults fuel pdefs params0 with
    | error e => rw [hudd] at h2; cases h2
    | ok params1x =>
      rw [hudd] at h2
      have h3 : (check_dependencies pdefs params1x >>= fun pdefs1 =>
          Except.ok (pdefs1, params1x)) = Except.ok (defs1, params1) := h2
      clear h2
      cases hcd : check_dependencies pdefs params1x with
      | error e => rw [hcd] at h3; cases h3
      | ok pdefs1 =>
        rw [hcd] at h3
        injection h3 with h4
        cases h4
        have hcore : defs_core defs1 = defs_core pdefs :=
          check_dependencies_aux_core (dep_list pdefs) params1 pdefs defs1 hcd
        have hmap : defs1.toList.map (fun p => (p.1, strip_display p.2)) =
            pdefs.toList.map (fun p => (p.1, strip_display p.2)) := by
          rw [← defs_core_toList, ← defs_core_toList, hcore]
        unfold populate_default_parameters
        have hs1 : default_value_map defs1.toList PyPairs.nil =
            Except.ok params0 := by
          rw [default_value_map_congr defs1.toList pdefs.toList hmap
            PyPairs.nil, hdvm]
        rw [hs1]
        show (update_dependent_defaults fuel defs1 params0 >>= fun p1 =>
            check_dependencies defs1 p1 >>= fun d1 => Except.ok (d1, p1)) =
          Except.ok (defs1, params1)
        have hs2 : update_dependent_defaults fuel defs1 params0 =
            Except.ok params1 := by
          show update_dependent_defaults_aux fuel defs1 defs1.toList params0 = _
          rw [update_dependent_defaults_aux_congr fuel defs1 pdefs hcore
            defs1.toList pdefs.toList hmap params0]
          exact hudd
        rw [hs2]
        show (check_dependencies defs1 params1 >>= fun d1 =>
            Except.ok (d1, params1)) = Except.ok (defs1, params1)
        have hs3 : check_dependencies defs1 params1 = Except.ok defs1 := by
          show check_dependencies_aux params1 (dep_list defs1) defs1 = _
          rw [dep_list_congr hcore]
          exact check_dependencies_aux_idem (dep_list pdefs) params1 pdefs
            defs1 (dep_list_names_nodup hnd) hcd
        rw [hs3]
        rfl

/-- C9 (witness): the idempotence theorem applied to `defs_idem`, an acyclic
definition set with a dependent default and a display dependency. -/
theorem claim9_witness :
    defs_idem.keyList.Nodup ∧
    populate_default_parameters 100 defs_idem =
      .ok (defs_idem_after, params_idem_after) ∧
    populate_default_parameters 100 defs_idem_after =
      .ok (defs_idem_after, params_idem_after) :=
  ⟨by decide, rfl, claim9_default_resolution_idempotent 100 defs_idem
    defs_idem_after params_idem_after (by decide) rfl⟩

/-- C10: supplying an override whose string form is `"default"` restores the
declared default of the parameter: a literal default is returned as-is, and
a dependency-descriptor default is resolved against the current value-set by
selecting the branch matching the current value of the parent parameter. -/
theorem claim10_default_string_restores_declared_default
    (pdefs params : PyPairs) (value name r d : PyVal)
    (hv : pyStr value = "default")
    (hr : pdefs.get? name = some r)
    (hd : pySub r (.str "default") = .ok d) :
    (d.isDict = false → check_for_default pdefs params value name = .ok d) ∧
    (∀ pn branches t pv w, d = .dict (PyPairs.cons pn branches t) →
      params.get? pn = some pv → pySub branches pv = .ok w →
      check_for_default pdefs params value name = .ok w) := by
  have hbase : check_for_default pdefs params value name =
      set_default_model d params name := by
    unfold check_for_default
    rw [if_pos hv]
    show ((match pdefs.get? name with
      | some r0 => (Except.ok r0 : Except PyErr PyVal)
      | Option.none => Except.error (PyErr.keyError name)) >>= fun rec0 =>
      pySub rec0 (PyVal.str "default") >>= fun d0 =>
      set_default_model d0 params name) = set_default_model d params name
    rw [hr]
    show (pySub r (PyVal.str "default") >>= fun d0 =>
      set_default_model d0 params name) = set_default_model d params name
    rw [hd]
    rfl
  constructor
  · intro hnd
    rw [hbase]
    cases d <;> first
      | rfl
      | (exact absurd hnd (by simp [PyVal.isDict]))
  · intro pn branches t pv w hdx hpv hw
    rw [hbase, hdx]
    show ((match params.get? pn with
      | some x => (Except.ok x : Except PyErr PyVal)
      | Option.none => Except.error (PyErr.keyError pn)) >>= fun pv0 =>
      pySub branches pv0) = Except.ok w
    rw [hpv]
    show pySub branches pv = Except.ok w
    exact hw

/-- C10 (witness): on `defs_default_restore` with `mode` currently
`"manual"`, the override string `"default"` restores the literal default
`"auto"` for `mode` and resolves the descriptor default of `threshold` to
10. -/
theorem claim10_witness :
    pyStr (PyVal.str "default") = "default" ∧
    check_for_default defs_default_restore params_default_restore
      (.str "default") (.str "threshold") = .ok (.int 10) ∧
    check_for_default defs_default_restore params_default_restore
      (.str "default") (.str "mode") = .ok (.str "auto") := by
  refine ⟨rfl, ?_, ?_⟩
  · exact (claim10_default_string_restores_declared_default
      defs_default_restore params_default_restore (.str "default")
      (.str "threshold") _ _ rfl rfl rfl).2
      (.str "mode") _ PyPairs.nil (.str "manual") (.int 10) rfl rfl rfl
  · exact (claim10_default_string_restores_declared_default
      defs_default_restore params_default_restore (.str "default")
      (.str "mode") _ _ rfl rfl rfl).1 rfl

end Savu
